import Mathlib

/-! # Status-icon animator (`icons/icons.go`)

A shallow embedding of the `icons` package: the `Icon` struct, `NewIcon`,
`SetTheme`, `setIcon`, `Set`, the ticker case of `loop`, and `CleanUp`, with a
step relation (`act`, `exec`) for schedules of the caller and the loop.

* The object and everything outside it are passed explicitly: `Icon` holds the
  struct fields, `Host` holds what the package touches outside the struct (the
  history of the presentation callback, the files on disk, the started
  goroutines and the outcomes of the operating-system calls).
* A run-time panic (index out of range) is the result `none`.
* Go `int` is `Int` wrapped to 64 bits; `%` is Go's truncated remainder.
* The embedded image blobs are not part of the package source that is modelled
  here; they are the parameter `Assets`.
-/

namespace Icons

/-- Go `[]byte`. -/
abbrev Bytes := List Nat

/-- The package-level image blobs (`yd128`, `lightBusy1`, ..., `darkError`). -/
structure Assets where
  yd128 : Bytes
  lightBusy1 : Bytes
  lightBusy2 : Bytes
  lightBusy3 : Bytes
  lightBusy4 : Bytes
  lightBusy5 : Bytes
  lightIdle : Bytes
  lightPause : Bytes
  lightError : Bytes
  darkBusy1 : Bytes
  darkBusy2 : Bytes
  darkBusy3 : Bytes
  darkBusy4 : Bytes
  darkBusy5 : Bytes
  darkIdle : Bytes
  darkPause : Bytes
  darkError : Bytes
deriving DecidableEq, Repr

/-- Go `[5][]byte`: an array of exactly five blobs. -/
structure Frames where
  f0 : Bytes
  f1 : Bytes
  f2 : Bytes
  f3 : Bytes
  f4 : Bytes
deriving DecidableEq, Repr

/-- Array indexing `a[n]`; `none` is the index-out-of-range panic. -/
def Frames.index (a : Frames) (n : Int) : Option Bytes :=
  if n = 0 then some a.f0
  else if n = 1 then some a.f1
  else if n = 2 then some a.f2
  else if n = 3 then some a.f3
  else if n = 4 then some a.f4
  else none

/-- Go `time.Duration` values are nanoseconds. -/
def Millisecond : Nat := 1000000

/-- Package variable `interval`. -/
def interval : Nat := Millisecond * 333

/-- A `*time.Ticker`: whether it is delivering ticks, and with which period. -/
structure Ticker where
  running : Bool
  period : Nat
deriving DecidableEq, Repr

/-- Go `time.NewTicker(d)`: a ticker that is running. -/
def NewTicker (d : Nat) : Ticker := { running := true, period := d }

/-- Go `t.Stop()`. -/
def Ticker.Stop (t : Ticker) : Ticker := { t with running := false }

/-- Go `t.Reset(d)`: the ticker runs with period `d`. -/
def Ticker.Reset (_t : Ticker) (d : Nat) : Ticker := { running := true, period := d }

/-- The struct `Icon`. `lock` is whether the mutex is held; `ctxDone` is the
state of the context that `stopper` cancels. The field `setFunc` is the
presentation callback, whose invocations are recorded in `Host.shown`. -/
structure Icon where
  NotifyIcon : String
  lock : Bool
  currentStatus : String
  currentIcon : Int
  busyIcons : Frames
  idleIcon : Bytes
  pauseIcon : Bytes
  errorIcon : Bytes
  ticker : Ticker
  ctxDone : Bool
deriving DecidableEq, Repr

/-- One invocation of the presentation callback: the bytes passed, and whether
the mutex of the animator was held at that moment. -/
structure Call where
  icon : Bytes
  locked : Bool
deriving DecidableEq, Repr

/-- Outcome of `os.CreateTemp`: the path of the new, empty file, or an error. -/
inductive TempOutcome where
  | created (path : String)
  | failed (err : String)
deriving DecidableEq, Repr

/-- Everything outside the struct.
* `shown`: the invocations of the presentation callback, oldest first;
* `files`: the files on disk, as path and contents;
* `loops`: how many `loop` goroutines have been started;
* `tempOutcome`: what the next `os.CreateTemp` does;
* `writeOutcome`: `none` if the next `file.Write` succeeds, else the number of
  bytes written and the error;
* `removeOutcome`: an error that `os.Remove` reports for an existing file
  (`none`: an existing file is removed). -/
structure Host where
  shown : List Call
  files : List (String × Bytes)
  loops : Nat
  tempOutcome : TempOutcome
  writeOutcome : Option (Nat × String)
  removeOutcome : Option String
deriving DecidableEq, Repr

/-- An animator together with its surroundings. -/
structure Sys where
  icon : Icon
  host : Host
deriving DecidableEq, Repr

/-- The light theme's assets as `SetTheme` assigns them. -/
def lightTheme (A : Assets) (i : Icon) : Icon :=
  { i with
    busyIcons := ⟨A.lightBusy1, A.lightBusy2, A.lightBusy3, A.lightBusy4, A.lightBusy5⟩
    idleIcon := A.lightIdle
    pauseIcon := A.lightPause
    errorIcon := A.lightError }

/-- The dark theme's assets as `SetTheme` assigns them. -/
def darkTheme (A : Assets) (i : Icon) : Icon :=
  { i with
    busyIcons := ⟨A.darkBusy1, A.darkBusy2, A.darkBusy3, A.darkBusy4, A.darkBusy5⟩
    idleIcon := A.darkIdle
    pauseIcon := A.darkPause
    errorIcon := A.darkError }

/-- Go `i.lock.Lock()`: the step of an operation is taken from the moment it
holds the mutex. -/
def Lock (s : Sys) : Sys := { s with icon := { s.icon with lock := true } }

/-- Go `i.lock.Unlock()`. -/
def Unlock (s : Sys) : Sys := { s with icon := { s.icon with lock := false } }

/-- Go `i.setFunc(b)`: one invocation of the presentation callback. -/
def setFunc (b : Bytes) (s : Sys) : Sys :=
  { s with host := { s.host with shown := s.host.shown ++ [⟨b, s.icon.lock⟩] } }

/-- Go `(i *Icon) setIcon(status)`. -/
def setIcon (status : String) (s : Sys) : Option Sys :=
  if status = "busy" ∨ status = "index" then
    match s.icon.busyIcons.index s.icon.currentIcon with
    | some b => some (setFunc b s)
    | none => none
  else if status = "idle" then some (setFunc s.icon.idleIcon s)
  else if status = "none" ∨ status = "paused" then some (setFunc s.icon.pauseIcon s)
  else some (setFunc s.icon.errorIcon s)

/-- The argument that `setIcon(status)` passes to `setFunc`, by the cases of its
`switch`; `none` is the index-out-of-range panic. -/
def iconFor (status : String) (i : Icon) : Option Bytes :=
  if status = "busy" ∨ status = "index" then i.busyIcons.index i.currentIcon
  else if status = "idle" then some i.idleIcon
  else if status = "none" ∨ status = "paused" then some i.pauseIcon
  else some i.errorIcon

/-- The text of the error of `SetTheme`. -/
def wrongTheme (theme : String) : String :=
  "wrong theme name: '" ++ theme ++ "' (should be 'dark' or 'light')"

/-- Go `(i *Icon) SetTheme(theme) error`: the state after the call and the
returned error (`none` is `nil`). The deferred `Unlock` runs at each return. -/
def SetTheme (A : Assets) (theme : String) (s : Sys) : Option (Sys × Option String) :=
  let s := Lock s
  let themed : Option Sys :=
    if theme = "light" then some { s with icon := lightTheme A s.icon }
    else if theme = "dark" then some { s with icon := darkTheme A s.icon }
    else none
  match themed with
  | none => some (Unlock s, some (wrongTheme theme))
  | some s =>
    if s.icon.currentStatus ≠ "" then
      match setIcon s.icon.currentStatus s with
      | some s => some (Unlock s, none)
      | none => none
    else some (Unlock s, none)

/-- Go `(i *Icon) Set(status)`. -/
def Set (status : String) (s : Sys) : Option Sys :=
  let s := Lock s
  let s : Sys :=
    if status = "busy" ∨ status = "index" then
      if s.icon.currentStatus ≠ "busy" ∧ s.icon.currentStatus ≠ "index" then
        { s with icon := { s.icon with ticker := s.icon.ticker.Reset interval } }
      else s
    else { s with icon := { s.icon with ticker := s.icon.ticker.Stop } }
  let s : Sys := { s with icon := { s.icon with currentStatus := status } }
  match setIcon status s with
  | some s => some (Unlock s)
  | none => none

/-- Go `int` addition: the sum wrapped to 64 bits, two's complement. -/
def wrapInt (x : Int) : Int :=
  (x + 9223372036854775808) % 18446744073709551616 - 9223372036854775808

/-- The case `<-i.ticker.C` of one iteration of `loop`. -/
def loopTick (s : Sys) : Option Sys :=
  let s := Lock s
  let s : Sys :=
    { s with icon := { s.icon with currentIcon := Int.tmod (wrapInt (s.icon.currentIcon + 1)) 5 } }
  match s.icon.busyIcons.index s.icon.currentIcon with
  | some b => some (Unlock (setFunc b s))
  | none => none

/-- Go `os.CreateTemp(os.TempDir(), "yd_notify_icon*.png")`: on success a new,
empty file exists at the chosen path. -/
def CreateTemp (h : Host) : TempOutcome × Host :=
  match h.tempOutcome with
  | .created path => (.created path, { h with files := (path, []) :: h.files })
  | .failed err => (.failed err, h)

/-- Go `file.Write(data)` on the file just created at `path`: the returned
error and the disk afterwards. -/
def fileWrite (path : String) (data : Bytes) (h : Host) : Option String × Host :=
  let store (d : Bytes) : List (String × Bytes) :=
    h.files.map (fun f => if f.1 = path then (path, d) else f)
  match h.writeOutcome with
  | none => (none, { h with files := store data })
  | some (n, err) => (some err, { h with files := store (data.take n) })

/-- Go `os.Remove(path)`: the returned error and the disk afterwards. -/
def Remove (path : String) (h : Host) : Option String × Host :=
  match h.files.lookup path with
  | none => (some ("remove " ++ path ++ ": no such file or directory"), h)
  | some _ =>
    match h.removeOutcome with
    | some err => (some err, h)
    | none => (none, { h with files := h.files.filter (fun f => f.1 ≠ path) })

/-- What `NewIcon` returns (`icon = none` is the `nil` pointer, `err = none` is
the `nil` error), with the surroundings after the call. -/
structure Created where
  icon : Option Icon
  err : Option String
  host : Host
deriving DecidableEq, Repr

/-- Go `NewIcon(theme, set)`; the callback `set` is the history `h.shown`. -/
def NewIcon (A : Assets) (theme : String) (h : Host) : Option Created :=
  match CreateTemp h with
  | (.failed err, h) => some ⟨none, some ("icon store error: " ++ err), h⟩
  | (.created name, h) =>
    match fileWrite name A.yd128 h with
    | (some err, h) => some ⟨none, some ("icon store error: " ++ err), h⟩
    | (none, h) =>
      let i : Icon :=
        { currentStatus := ""
          currentIcon := 0
          NotifyIcon := name
          ticker := NewTicker interval
          ctxDone := false
          lock := false
          busyIcons := ⟨[], [], [], [], []⟩
          idleIcon := []
          pauseIcon := []
          errorIcon := [] }
      let i : Icon := { i with ticker := i.ticker.Stop }
      match SetTheme A theme ⟨i, h⟩ with
      | none => none
      | some (s, some err) => some ⟨none, some err, s.host⟩
      | some (s, none) =>
        let s : Sys := { s with host := { s.host with loops := s.host.loops + 1 } }
        let s : Sys := setFunc s.icon.pauseIcon s
        some ⟨some s.icon, none, s.host⟩

/-- Go `(i *Icon) CleanUp() error`: the state after the call and the error. -/
def CleanUp (s : Sys) : Sys × Option String :=
  let s : Sys := { s with icon := { s.icon with ticker := s.icon.ticker.Stop } }
  let s : Sys := { s with icon := { s.icon with ctxDone := true } }
  match Remove s.icon.NotifyIcon s.host with
  | (some err, h) => ({ s with host := h }, some ("icon remove error: " ++ err))
  | (none, h) => ({ s with host := h }, none)

/-- What can happen to a constructed animator: a call of `Set`, a call of
`SetTheme`, or the ticker firing. -/
inductive Op where
  | set (status : String)
  | setTheme (theme : String)
  | tick
deriving DecidableEq, Repr

/-- One operation; `none` is a step that cannot be taken or that panics. A
tick is here the receipt and the body of the tick case taken together. With
`gated` it is taken only while the ticker is running; without it it is taken
in any state, which covers a tick received before a call stopped the ticker
and handled after that call. The schedules that separate receipt and handling
are those of `act`. -/
def step (A : Assets) (gated : Bool) (op : Op) (s : Sys) : Option Sys :=
  match op with
  | .set status => Set status s
  | .setTheme theme => (SetTheme A theme s).map Prod.fst
  | .tick => if gated = true ∧ s.icon.ticker.running = false then none else loopTick s

/-- A sequence of operations, left to right. -/
def run (A : Assets) (gated : Bool) : List Op → Sys → Option Sys
  | [], s => some s
  | op :: ops, s => (step A gated op s).bind (run A gated ops)

/-- The states of an animator that `NewIcon` returned, after any operations. -/
def Reachable (A : Assets) (gated : Bool) (s : Sys) : Prop :=
  ∃ (theme : String) (h : Host) (c : Created) (i : Icon) (ops : List Op),
    NewIcon A theme h = some c ∧ c.icon = some i ∧ run A gated ops ⟨i, c.host⟩ = some s

/-- The ticker firing `n` times in a row. -/
def ticks : Nat → Sys → Option Sys
  | 0, s => some s
  | n + 1, s => (loopTick s).bind (ticks n)

/-- Assets with seventeen different contents, for concrete evaluation. -/
def sampleAssets : Assets :=
  { yd128 := [0]
    lightBusy1 := [1], lightBusy2 := [2], lightBusy3 := [3], lightBusy4 := [4]
    lightBusy5 := [5], lightIdle := [6], lightPause := [7], lightError := [8]
    darkBusy1 := [11], darkBusy2 := [12], darkBusy3 := [13], darkBusy4 := [14]
    darkBusy5 := [15], darkIdle := [16], darkPause := [17], darkError := [18] }

/-- A host with an empty disk on which file creation and writing succeed. -/
def sampleHost : Host :=
  { shown := [], files := [], loops := 0
    tempOutcome := .created "/tmp/yd_notify_icon1.png"
    writeOutcome := none, removeOutcome := none }

/-- A light-theme animator showing its third busy frame. -/
def sampleSys : Sys :=
  { icon :=
      { NotifyIcon := "/tmp/yd_notify_icon1.png", lock := false
        currentStatus := "busy", currentIcon := 2
        busyIcons := ⟨[1], [2], [3], [4], [5]⟩
        idleIcon := [6], pauseIcon := [7], errorIcon := [8]
        ticker := ⟨true, interval⟩, ctxDone := false }
    host := { sampleHost with shown := [⟨[7], false⟩, ⟨[1], true⟩, ⟨[2], true⟩, ⟨[3], true⟩]
                              files := [("/tmp/yd_notify_icon1.png", [0])], loops := 1 } }

/-- The errors returned by `n` calls of `CleanUp` in a row, first call first. -/
def cleanUps : Nat → Sys → List (Option String)
  | 0, _ => []
  | n + 1, s => (CleanUp s).2 :: cleanUps n (CleanUp s).1

/-- Where the goroutine that runs `loop` stands: blocked in `select`; past
`case <-i.ticker.C` and about to call `i.lock.Lock()`; or returned after
`case <-ctx.Done()`. -/
inductive LoopAt where
  | select
  | gotTick
  | returned
deriving DecidableEq, Repr

/-- The animator shared by the caller thread and the loop goroutine. -/
structure Conc where
  sys : Sys
  loop : LoopAt
deriving DecidableEq, Repr

/-- The actions that a schedule interleaves. `set`, `setTheme` and `cleanUp`
are calls by the caller thread; `recv`, `handle` and `finish` are the loop
receiving a tick, running the body of the tick case, and returning. -/
inductive Act where
  | set (status : String)
  | setTheme (theme : String)
  | cleanUp
  | recv
  | handle
  | finish
deriving DecidableEq, Repr

/-- One action; `none` is an action that cannot be taken or that panics.
`Set`, `SetTheme` and the body of the tick case hold the mutex from their first
statement to their last, so each of them is one action. `CleanUp` takes no
mutex; its three statements are taken as one action, and what holds after its
return depends on the state at its return only. A tick is received only from a
running ticker. -/
def act (A : Assets) (a : Act) (c : Conc) : Option Conc :=
  match a with
  | .set status => (Set status c.sys).map (fun s => { c with sys := s })
  | .setTheme theme => (SetTheme A theme c.sys).map (fun r => { c with sys := r.1 })
  | .cleanUp => some { c with sys := (CleanUp c.sys).1 }
  | .recv =>
    if c.loop = .select ∧ c.sys.icon.ticker.running = true then
      some { c with loop := .gotTick }
    else none
  | .handle =>
    if c.loop = .gotTick then (loopTick c.sys).map (fun s => { sys := s, loop := .select })
    else none
  | .finish =>
    if c.loop = .select ∧ c.sys.icon.ctxDone = true then some { c with loop := .returned }
    else none

/-- A schedule, left to right. -/
def exec (A : Assets) : List Act → Conc → Option Conc
  | [], c => some c
  | a :: as, c => (act A a c).bind (exec A as)

/-- Whether an action belongs to the loop goroutine. -/
def Act.ofLoop : Act → Bool
  | .recv => true
  | .handle => true
  | .finish => true
  | _ => false

/-- The shared state in which a successful `NewIcon` leaves things: the loop
goroutine started and blocked in `select`. -/
def start (c : Created) : Option Conc :=
  c.icon.map (fun i => { sys := ⟨i, c.host⟩, loop := .select })

/-- The state right after `NewIcon("light", cb)` on the sample host. -/
def sampleStart : Conc :=
  { sys :=
      { icon :=
          { NotifyIcon := "/tmp/yd_notify_icon1.png", lock := false
            currentStatus := "", currentIcon := 0
            busyIcons := ⟨[1], [2], [3], [4], [5]⟩
            idleIcon := [6], pauseIcon := [7], errorIcon := [8]
            ticker := ⟨false, interval⟩, ctxDone := false }
        host := { sampleHost with shown := [⟨[7], false⟩]
                                  files := [("/tmp/yd_notify_icon1.png", [0])], loops := 1 } }
    loop := .select }

/-- A call made by `CleanUp`: `i.ticker.Stop()`, `i.stopper()` or
`os.Remove(path)`. -/
inductive Stmt where
  | tickerStop
  | stopper
  | osRemove (path : String)
deriving DecidableEq, Repr

/-- The statements of `CleanUp` in the order of the source, with a log of the
calls made: each call is entered together with the state in which it is made.
The second component is what `CleanUp` returns. -/
def CleanUpTrace (s : Sys) : List (Stmt × Sys) × (Sys × Option String) :=
  let log : List (Stmt × Sys) := [(.tickerStop, s)]
  let s : Sys := { s with icon := { s.icon with ticker := s.icon.ticker.Stop } }
  let log := log ++ [(.stopper, s)]
  let s : Sys := { s with icon := { s.icon with ctxDone := true } }
  let log := log ++ [(.osRemove s.icon.NotifyIcon, s)]
  match Remove s.icon.NotifyIcon s.host with
  | (some err, h) => (log, ({ s with host := h }, some ("icon remove error: " ++ err)))
  | (none, h) => (log, ({ s with host := h }, none))

/-- Whether, along a schedule, the loop runs the body of the tick case only
while the ticker is running, that is, before a later call has stopped it. -/
def prompt (A : Assets) : List Act → Conc → Bool
  | [], _ => true
  | a :: as, c =>
    (if a = .handle then c.sys.icon.ticker.running else true) &&
      match act A a c with
      | some c' => prompt A as c'
      | none => true

/-! ## Helper lemmas -/

/-- Array indexing succeeds exactly on the indices `0..4`. -/
theorem Frames.index_isSome_iff (a : Frames) (n : Int) :
    (a.index n).isSome ↔ 0 ≤ n ∧ n < 5 := by
  unfold Frames.index
  constructor
  · intro h
    split_ifs at h <;> first | omega | simp at h
  · intro h
    have : n = 0 ∨ n = 1 ∨ n = 2 ∨ n = 3 ∨ n = 4 := by omega
    rcases this with h | h | h | h | h <;> simp [h]

/-- Array indexing at an index in range yields an element. -/
theorem Frames.index_of_inRange (a : Frames) (n : Int) (h0 : 0 ≤ n) (h5 : n < 5) :
    ∃ b, a.index n = some b :=
  Option.isSome_iff_exists.mp ((Frames.index_isSome_iff a n).mpr ⟨h0, h5⟩)

/-- The effect of `Set` once the frame to show is known. -/
theorem Set_busy_eq (status : String) (s : Sys) (b : Bytes)
    (hs : status = "busy" ∨ status = "index")
    (hb : s.icon.busyIcons.index s.icon.currentIcon = some b) :
    ∃ s', Set status s = some s' ∧ s'.icon.currentStatus = status ∧
      s'.host.shown = s.host.shown ++ [⟨b, true⟩] := by
  simp [Set, setIcon, Lock, Unlock, setFunc, hs]
  split_ifs <;> simp [hb]

/-- The effect of `Set` for a status that is not animated: the ticker is
stopped, the status recorded, and the icon chosen by `setIcon` shown. -/
theorem Set_static_eq (status : String) (s : Sys)
    (hs : ¬ (status = "busy" ∨ status = "index")) :
    Set status s = some
      { icon := { s.icon with lock := false, currentStatus := status,
                              ticker := s.icon.ticker.Stop }
        host := { s.host with shown := s.host.shown ++
          [⟨if status = "idle" then s.icon.idleIcon
            else if status = "none" ∨ status = "paused" then s.icon.pauseIcon
            else s.icon.errorIcon, true⟩] } } := by
  simp only [Set, setIcon, Lock, Unlock, setFunc, hs, if_false]
  split_ifs <;> rfl

/-- `setIcon` changes nothing but the history of the callback, to which it
adds one invocation. -/
theorem setIcon_some (status : String) (s s' : Sys) (h : setIcon status s = some s') :
    s'.icon = s.icon ∧ ∃ b, s'.host = { s.host with shown := s.host.shown ++ [⟨b, s.icon.lock⟩] } := by
  unfold setIcon at h
  split_ifs at h
  · split at h
    · cases h; exact ⟨rfl, _, rfl⟩
    · cases h
  all_goals cases h; exact ⟨rfl, _, rfl⟩

/-- `setIcon` panics only in the busy case with the frame index out of range. -/
theorem setIcon_isSome (status : String) (s : Sys)
    (hf : 0 ≤ s.icon.currentIcon ∧ s.icon.currentIcon < 5) :
    ∃ s', setIcon status s = some s' := by
  obtain ⟨b, hb⟩ := Frames.index_of_inRange s.icon.busyIcons _ hf.1 hf.2
  unfold setIcon
  split_ifs <;> simp [hb]

/-- The struct after `Set`: only `currentStatus`, the ticker and the mutex are
written. -/
theorem Set_icon (status : String) (s s' : Sys) (h : Set status s = some s') :
    s'.icon = { s.icon with
      lock := false
      currentStatus := status
      ticker :=
        if status = "busy" ∨ status = "index" then
          if s.icon.currentStatus ≠ "busy" ∧ s.icon.currentStatus ≠ "index" then
            s.icon.ticker.Reset interval
          else s.icon.ticker
        else s.icon.ticker.Stop } := by
  unfold Set at h
  simp only [Lock] at h
  split at h
  · rename_i s1 h1
    cases h
    have := (setIcon_some _ _ _ h1).1
    simp only [Unlock, this]
    split_ifs <;> rfl
  · cases h

/-- `Set` returns whenever the frame index is in range. -/
theorem Set_isSome (status : String) (s : Sys)
    (hf : 0 ≤ s.icon.currentIcon ∧ s.icon.currentIcon < 5) :
    ∃ s', Set status s = some s' := by
  by_cases hs : status = "busy" ∨ status = "index"
  · obtain ⟨b, hb⟩ := Frames.index_of_inRange s.icon.busyIcons _ hf.1 hf.2
    obtain ⟨s', h1, _⟩ := Set_busy_eq status s b hs hb
    exact ⟨s', h1⟩
  · exact ⟨_, Set_static_eq status s hs⟩

/-- `SetTheme` with an unknown theme: the error is returned and nothing but the
mutex is written. -/
theorem SetTheme_invalid (A : Assets) (theme : String) (s : Sys)
    (hl : theme ≠ "light") (hd : theme ≠ "dark") :
    SetTheme A theme s =
      some ({ s with icon := { s.icon with lock := false } }, some (wrongTheme theme)) := by
  simp [SetTheme, Lock, Unlock, hl, hd]

/-- `SetTheme("light")` when it returns: no error, and the struct holds the
light assets. -/
theorem SetTheme_light (A : Assets) (s s' : Sys) (e : Option String)
    (h : SetTheme A "light" s = some (s', e)) :
    e = none ∧ s'.icon = { lightTheme A s.icon with lock := false } ∧
      (s.icon.currentStatus = "" → s'.host = s.host) := by
  simp only [SetTheme, Lock, if_true] at h
  by_cases hst : s.icon.currentStatus = ""
  · simp [lightTheme, hst, Unlock] at h
    obtain ⟨rfl, rfl⟩ := h
    exact ⟨rfl, by simp [lightTheme, hst], fun _ => rfl⟩
  · simp only [lightTheme, ne_eq, hst, not_false_eq_true, if_true] at h
    split at h
    · rename_i s1 h1
      simp only [Option.some.injEq, Prod.mk.injEq] at h
      obtain ⟨rfl, rfl⟩ := h
      exact ⟨rfl, by simp [Unlock, (setIcon_some _ _ _ h1).1, lightTheme],
        fun h0 => absurd h0 hst⟩
    · cases h

/-- `SetTheme("dark")` when it returns: no error, and the struct holds the dark
assets. -/
theorem SetTheme_dark (A : Assets) (s s' : Sys) (e : Option String)
    (h : SetTheme A "dark" s = some (s', e)) :
    e = none ∧ s'.icon = { darkTheme A s.icon with lock := false } ∧
      (s.icon.currentStatus = "" → s'.host = s.host) := by
  have hne : ¬ ("dark" = "light") := by decide
  simp only [SetTheme, Lock, hne, if_false, if_true] at h
  by_cases hst : s.icon.currentStatus = ""
  · simp [darkTheme, hst, Unlock] at h
    obtain ⟨rfl, rfl⟩ := h
    exact ⟨rfl, by simp [darkTheme, hst], fun _ => rfl⟩
  · simp only [darkTheme, ne_eq, hst, not_false_eq_true, if_true] at h
    split at h
    · rename_i s1 h1
      simp only [Option.some.injEq, Prod.mk.injEq] at h
      obtain ⟨rfl, rfl⟩ := h
      exact ⟨rfl, by simp [Unlock, (setIcon_some _ _ _ h1).1, darkTheme],
        fun h0 => absurd h0 hst⟩
    · cases h

/-- The struct after `SetTheme`: an unknown theme writes nothing but the mutex,
"light" and "dark" write the eight assets. -/
theorem SetTheme_icon (A : Assets) (theme : String) (s s' : Sys) (e : Option String)
    (h : SetTheme A theme s = some (s', e)) :
    (theme = "light" ∧ e = none ∧ s'.icon = { lightTheme A s.icon with lock := false }) ∨
    (theme = "dark" ∧ e = none ∧ s'.icon = { darkTheme A s.icon with lock := false }) ∨
    (theme ≠ "light" ∧ theme ≠ "dark" ∧ e = some (wrongTheme theme) ∧
      s' = { s with icon := { s.icon with lock := false } }) := by
  by_cases hl : theme = "light"
  · subst hl
    obtain ⟨h1, h2, _⟩ := SetTheme_light A s s' e h
    exact Or.inl ⟨rfl, h1, h2⟩
  · by_cases hd : theme = "dark"
    · subst hd
      obtain ⟨h1, h2, _⟩ := SetTheme_dark A s s' e h
      exact Or.inr (Or.inl ⟨rfl, h1, h2⟩)
    · rw [SetTheme_invalid A theme s hl hd] at h
      simp only [Option.some.injEq, Prod.mk.injEq] at h
      exact Or.inr (Or.inr ⟨hl, hd, h.2.symm, h.1.symm⟩)

/-- `SetTheme` returns whenever the frame index is in range. -/
theorem SetTheme_isSome (A : Assets) (theme : String) (s : Sys)
    (hf : 0 ≤ s.icon.currentIcon ∧ s.icon.currentIcon < 5) :
    ∃ r, SetTheme A theme s = some r := by
  by_cases hl : theme = "light"
  · subst hl
    obtain ⟨s', hs'⟩ := setIcon_isSome s.icon.currentStatus
      { s with icon := lightTheme A { s.icon with lock := true } } hf
    simp only [lightTheme] at hs'
    simp only [SetTheme, Lock, if_true, lightTheme, hs']
    split_ifs <;> exact ⟨_, rfl⟩
  · by_cases hd : theme = "dark"
    · subst hd
      obtain ⟨s', hs'⟩ := setIcon_isSome s.icon.currentStatus
        { s with icon := darkTheme A { s.icon with lock := true } } hf
      simp only [darkTheme] at hs'
      simp only [SetTheme, Lock, hl, if_false, if_true, darkTheme, hs']
      split_ifs <;> exact ⟨_, rfl⟩
    · exact ⟨_, SetTheme_invalid A theme s hl hd⟩

/-- In range, Go's `(f + 1) % 5` is the mathematical remainder. -/
theorem next_frame (f : Int) (h0 : 0 ≤ f) (h5 : f < 5) :
    Int.tmod (wrapInt (f + 1)) 5 = (f + 1) % 5 := by
  have hw : wrapInt (f + 1) = f + 1 := by unfold wrapInt; omega
  rw [hw, Int.tmod_eq_emod (by omega) (by omega)]

/-- The ticker firing, for a frame index in range. -/
theorem loopTick_eq (s : Sys) (hf : 0 ≤ s.icon.currentIcon ∧ s.icon.currentIcon < 5) :
    ∃ b, s.icon.busyIcons.index ((s.icon.currentIcon + 1) % 5) = some b ∧
      loopTick s = some
        { icon := { s.icon with lock := false, currentIcon := (s.icon.currentIcon + 1) % 5 }
          host := { s.host with shown := s.host.shown ++ [⟨b, true⟩] } } := by
  obtain ⟨b, hb⟩ := Frames.index_of_inRange s.icon.busyIcons ((s.icon.currentIcon + 1) % 5)
    (by omega) (by omega)
  refine ⟨b, hb, ?_⟩
  simp only [loopTick, Lock, next_frame _ hf.1 hf.2, hb]
  rfl

/-- The struct that `NewIcon` builds before it applies the theme. -/
theorem NewIcon_light_eq (A : Assets) (h : Host) (path : String)
    (ht : h.tempOutcome = .created path) (hw : h.writeOutcome = none) :
    NewIcon A "light" h = some
      { icon := some
          { NotifyIcon := path, lock := false, currentStatus := "", currentIcon := 0
            busyIcons := ⟨A.lightBusy1, A.lightBusy2, A.lightBusy3, A.lightBusy4, A.lightBusy5⟩
            idleIcon := A.lightIdle, pauseIcon := A.lightPause, errorIcon := A.lightError
            ticker := ⟨false, interval⟩, ctxDone := false }
        err := none
        host := { h with
          shown := h.shown ++ [⟨A.lightPause, false⟩]
          files := (path, A.yd128) :: h.files.map (fun f => if f.1 = path then (path, A.yd128) else f)
          loops := h.loops + 1 } } := by
  simp [NewIcon, CreateTemp, fileWrite, ht, hw, SetTheme, Lock, Unlock, lightTheme, setFunc,
    NewTicker, Ticker.Stop]

/-- The same for the dark theme. -/
theorem NewIcon_dark_eq (A : Assets) (h : Host) (path : String)
    (ht : h.tempOutcome = .created path) (hw : h.writeOutcome = none) :
    NewIcon A "dark" h = some
      { icon := some
          { NotifyIcon := path, lock := false, currentStatus := "", currentIcon := 0
            busyIcons := ⟨A.darkBusy1, A.darkBusy2, A.darkBusy3, A.darkBusy4, A.darkBusy5⟩
            idleIcon := A.darkIdle, pauseIcon := A.darkPause, errorIcon := A.darkError
            ticker := ⟨false, interval⟩, ctxDone := false }
        err := none
        host := { h with
          shown := h.shown ++ [⟨A.darkPause, false⟩]
          files := (path, A.yd128) :: h.files.map (fun f => if f.1 = path then (path, A.yd128) else f)
          loops := h.loops + 1 } } := by
  simp [NewIcon, CreateTemp, fileWrite, ht, hw, SetTheme, Lock, Unlock, darkTheme, setFunc,
    NewTicker, Ticker.Stop]

/-- `NewIcon` returns an animator only for the themes "light" and "dark" and
only when the file was created and written. -/
theorem NewIcon_some (A : Assets) (theme : String) (h : Host) (c : Created) (i : Icon)
    (hc : NewIcon A theme h = some c) (hi : c.icon = some i) :
    ∃ path, h.tempOutcome = .created path ∧ h.writeOutcome = none ∧
      (theme = "light" ∨ theme = "dark") := by
  cases ht : h.tempOutcome with
  | failed err =>
    simp [NewIcon, CreateTemp, ht] at hc
    subst hc
    cases hi
  | created path =>
    cases hw : h.writeOutcome with
    | some r =>
      simp [NewIcon, CreateTemp, fileWrite, ht, hw] at hc
      subst hc
      cases hi
    | none =>
      refine ⟨path, rfl, rfl, ?_⟩
      by_contra hth
      have hl : theme ≠ "light" := fun h0 => hth (Or.inl h0)
      have hd : theme ≠ "dark" := fun h0 => hth (Or.inr h0)
      simp [NewIcon, CreateTemp, fileWrite, ht, hw, SetTheme_invalid A theme _ hl hd] at hc
      subst hc
      cases hi

/-- What holds of every animator in use: the frame index is in `[0,5)`, the
ticker runs exactly in the statuses "busy" and "index", and the eight assets
are those of one theme. -/
def Inv (A : Assets) (i : Icon) : Prop :=
  (0 ≤ i.currentIcon ∧ i.currentIcon < 5) ∧
  (i.ticker.running = true ↔ (i.currentStatus = "busy" ∨ i.currentStatus = "index")) ∧
  ((i.busyIcons = ⟨A.lightBusy1, A.lightBusy2, A.lightBusy3, A.lightBusy4, A.lightBusy5⟩ ∧
      i.idleIcon = A.lightIdle ∧ i.pauseIcon = A.lightPause ∧ i.errorIcon = A.lightError) ∨
   (i.busyIcons = ⟨A.darkBusy1, A.darkBusy2, A.darkBusy3, A.darkBusy4, A.darkBusy5⟩ ∧
      i.idleIcon = A.darkIdle ∧ i.pauseIcon = A.darkPause ∧ i.errorIcon = A.darkError))

/-- The animator that `NewIcon` returns satisfies `Inv`. -/
theorem Inv_NewIcon (A : Assets) (theme : String) (h : Host) (c : Created) (i : Icon)
    (hc : NewIcon A theme h = some c) (hi : c.icon = some i) : Inv A i := by
  obtain ⟨path, ht, hw, hth⟩ := NewIcon_some A theme h c i hc hi
  rcases hth with rfl | rfl
  · rw [NewIcon_light_eq A h path ht hw] at hc
    cases hc
    cases hi
    exact ⟨by simp, by simp, Or.inl ⟨rfl, rfl, rfl, rfl⟩⟩
  · rw [NewIcon_dark_eq A h path ht hw] at hc
    cases hc
    cases hi
    exact ⟨by simp, by simp, Or.inr ⟨rfl, rfl, rfl, rfl⟩⟩

/-- Every operation preserves `Inv`. -/
theorem Inv_step (A : Assets) (gated : Bool) (op : Op) (s s' : Sys) (hinv : Inv A s.icon)
    (h : step A gated op s = some s') : Inv A s'.icon := by
  obtain ⟨hf, ht, hb⟩ := hinv
  cases op with
  | set status =>
    have hi := Set_icon status s s' h
    rw [hi]
    refine ⟨hf, ?_, hb⟩
    by_cases hs : status = "busy" ∨ status = "index"
    · by_cases hc : s.icon.currentStatus ≠ "busy" ∧ s.icon.currentStatus ≠ "index"
      · simp [hs, hc, Ticker.Reset]
      · have hc' : s.icon.currentStatus = "busy" ∨ s.icon.currentStatus = "index" := by
          by_contra hn
          exact hc ⟨fun h0 => hn (Or.inl h0), fun h0 => hn (Or.inr h0)⟩
        simp [hs, hc, ht.mpr hc']
    · simp [hs, Ticker.Stop]
  | setTheme theme =>
    simp only [step, Option.map_eq_some', Prod.exists, exists_and_right, exists_eq_right] at h
    obtain ⟨e, he⟩ := h
    rcases SetTheme_icon A theme s s' e he with ⟨_, _, hi⟩ | ⟨_, _, hi⟩ | ⟨_, _, _, hi⟩
    · rw [hi]
      exact ⟨hf, ht, Or.inl ⟨rfl, rfl, rfl, rfl⟩⟩
    · rw [hi]
      exact ⟨hf, ht, Or.inr ⟨rfl, rfl, rfl, rfl⟩⟩
    · rw [hi]
      exact ⟨hf, ht, hb⟩
  | tick =>
    simp only [step] at h
    split_ifs at h
    obtain ⟨b, _, hb'⟩ := loopTick_eq s hf
    rw [hb'] at h
    cases h
    exact ⟨by constructor <;> simp only <;> omega, ht, hb⟩

/-- A run of operations preserves `Inv`. -/
theorem Inv_run (A : Assets) (gated : Bool) (ops : List Op) (s s' : Sys)
    (hinv : Inv A s.icon) (h : run A gated ops s = some s') : Inv A s'.icon := by
  induction ops generalizing s with
  | nil =>
    simp only [run, Option.some.injEq] at h
    exact h ▸ hinv
  | cons op ops ih =>
    simp only [run, Option.bind_eq_some] at h
    obtain ⟨s1, h1, h2⟩ := h
    exact ih s1 (Inv_step A gated op s s1 hinv h1) h2

/-- Every reachable state satisfies `Inv`. -/
theorem Inv_of_Reachable (A : Assets) (gated : Bool) (s : Sys) (h : Reachable A gated s) :
    Inv A s.icon := by
  obtain ⟨theme, h0, c, i, ops, hc, hi, hr⟩ := h
  exact Inv_run A gated ops ⟨i, c.host⟩ s (Inv_NewIcon A theme h0 c i hc hi) hr

/-- `setIcon` invokes the callback once, with `iconFor`. -/
theorem setIcon_eq (status : String) (s : Sys) :
    setIcon status s = (iconFor status s.icon).map (fun b => setFunc b s) := by
  unfold setIcon iconFor
  split_ifs
  · cases s.icon.busyIcons.index s.icon.currentIcon <;> rfl
  all_goals rfl

/-- The sample state is what `NewIcon("light")`, `Set("busy")` and two ticks
produce. -/
theorem sampleSys_reachable : Reachable sampleAssets true sampleSys :=
  ⟨"light", sampleHost, _, _, [.set "busy", .tick, .tick],
    NewIcon_light_eq sampleAssets sampleHost "/tmp/yd_notify_icon1.png" rfl rfl, rfl, by decide⟩

/-- `iconFor` is defined whenever the frame index is in range. -/
theorem iconFor_isSome (status : String) (i : Icon)
    (hf : 0 ≤ i.currentIcon ∧ i.currentIcon < 5) : ∃ b, iconFor status i = some b := by
  unfold iconFor
  split_ifs
  · exact Frames.index_of_inRange _ _ hf.1 hf.2
  all_goals exact ⟨_, rfl⟩

/-- `SetTheme("light")` on an animator whose status is set. -/
theorem SetTheme_light_eq (A : Assets) (s : Sys) (b : Bytes)
    (hst : s.icon.currentStatus ≠ "")
    (hb : iconFor s.icon.currentStatus (lightTheme A s.icon) = some b) :
    SetTheme A "light" s = some
      ({ icon := { lightTheme A s.icon with lock := false }
         host := { s.host with shown := s.host.shown ++ [⟨b, true⟩] } }, none) := by
  have hb' : iconFor s.icon.currentStatus (lightTheme A { s.icon with lock := true }) = some b := hb
  simp only [SetTheme, Lock, if_true, setIcon_eq]
  simp only [lightTheme] at hb' ⊢
  simp only [ne_eq, hst, not_false_eq_true, if_true, hb']
  rfl

/-- `SetTheme("dark")` on an animator whose status is set. -/
theorem SetTheme_dark_eq (A : Assets) (s : Sys) (b : Bytes)
    (hst : s.icon.currentStatus ≠ "")
    (hb : iconFor s.icon.currentStatus (darkTheme A s.icon) = some b) :
    SetTheme A "dark" s = some
      ({ icon := { darkTheme A s.icon with lock := false }
         host := { s.host with shown := s.host.shown ++ [⟨b, true⟩] } }, none) := by
  have hb' : iconFor s.icon.currentStatus (darkTheme A { s.icon with lock := true }) = some b := hb
  have hne : ¬ ("dark" = "light") := by decide
  simp only [SetTheme, Lock, hne, if_false, if_true, setIcon_eq]
  simp only [darkTheme] at hb' ⊢
  simp only [ne_eq, hst, not_false_eq_true, if_true, hb']
  rfl

/-- The ticker firing `n` times moves the frame index `n` places round the
cycle and writes nothing else of the struct but the mutex. -/
theorem ticks_eq (n : Nat) (s : Sys) (hf : 0 ≤ s.icon.currentIcon ∧ s.icon.currentIcon < 5) :
    ∃ s', ticks n s = some s' ∧
      s'.icon.currentIcon = (s.icon.currentIcon + n) % 5 ∧
      s'.icon.currentStatus = s.icon.currentStatus ∧
      s'.icon.busyIcons = s.icon.busyIcons ∧ s'.icon.idleIcon = s.icon.idleIcon ∧
      s'.icon.pauseIcon = s.icon.pauseIcon ∧ s'.icon.errorIcon = s.icon.errorIcon := by
  induction n generalizing s with
  | zero =>
    refine ⟨s, rfl, ?_, rfl, rfl, rfl, rfl, rfl⟩
    simp only [Nat.cast_zero, add_zero]
    omega
  | succ n ih =>
    obtain ⟨b, _, hb⟩ := loopTick_eq s hf
    obtain ⟨s', h1, h2, h3, h4, h5, h6, h7⟩ := ih
      { icon := { s.icon with lock := false, currentIcon := (s.icon.currentIcon + 1) % 5 }
        host := { s.host with shown := s.host.shown ++ [⟨b, true⟩] } }
      (by constructor <;> simp only <;> omega)
    refine ⟨s', ?_, ?_, h3, h4, h5, h6, h7⟩
    · simp only [ticks, hb, Option.some_bind, h1]
    · rw [h2]
      simp only [Nat.cast_add, Nat.cast_one]
      omega

/-! ## C1 -/

/-- C1. `Set(status)` records `status` as the current status and invokes the
presentation callback exactly once (under the mutex): with the busy frame
`busyIcons[currentIcon]` when the status is "busy" or "index" (the frame index
being in `[0,5)`), with the idle asset for "idle", with the pause asset for
"none" and "paused", and with the error asset for every other string, among
them "", "Busy" and "indexing". -/
theorem Set_presents_status_icon (status : String) (s : Sys) :
    (status = "busy" ∨ status = "index" →
      0 ≤ s.icon.currentIcon ∧ s.icon.currentIcon < 5 →
      ∃ b s', s.icon.busyIcons.index s.icon.currentIcon = some b ∧
        Set status s = some s' ∧ s'.icon.currentStatus = status ∧
        s'.host.shown = s.host.shown ++ [⟨b, true⟩]) ∧
    (status = "idle" →
      ∃ s', Set status s = some s' ∧ s'.icon.currentStatus = status ∧
        s'.host.shown = s.host.shown ++ [⟨s.icon.idleIcon, true⟩]) ∧
    (status = "none" ∨ status = "paused" →
      ∃ s', Set status s = some s' ∧ s'.icon.currentStatus = status ∧
        s'.host.shown = s.host.shown ++ [⟨s.icon.pauseIcon, true⟩]) ∧
    (status ≠ "busy" ∧ status ≠ "index" ∧ status ≠ "idle" ∧ status ≠ "none" ∧
        status ≠ "paused" →
      ∃ s', Set status s = some s' ∧ s'.icon.currentStatus = status ∧
        s'.host.shown = s.host.shown ++ [⟨s.icon.errorIcon, true⟩]) ∧
    (status = "" ∨ status = "Busy" ∨ status = "indexing" →
      ∃ s', Set status s = some s' ∧ s'.icon.currentStatus = status ∧
        s'.host.shown = s.host.shown ++ [⟨s.icon.errorIcon, true⟩]) := by
  refine ⟨?_, ?_, ?_, ?_, ?_⟩
  · intro hs hf
    obtain ⟨b, hb⟩ := Frames.index_of_inRange s.icon.busyIcons _ hf.1 hf.2
    obtain ⟨s', h1, h2, h3⟩ := Set_busy_eq status s b hs hb
    exact ⟨b, s', hb, h1, h2, h3⟩
  · intro hs
    subst hs
    exact ⟨_, Set_static_eq "idle" s (by decide), rfl, by simp⟩
  · intro hs
    have hn : ¬ (status = "busy" ∨ status = "index") := by
      rcases hs with h | h <;> subst h <;> decide
    refine ⟨_, Set_static_eq status s hn, rfl, ?_⟩
    rcases hs with h | h <;> subst h <;> simp
  · intro hs
    have hn : ¬ (status = "busy" ∨ status = "index") := by
      rintro (h | h)
      · exact hs.1 h
      · exact hs.2.1 h
    refine ⟨_, Set_static_eq status s hn, rfl, ?_⟩
    simp [hs.2.2.1, hs.2.2.2.1, hs.2.2.2.2]
  · intro hs
    have hn : ¬ (status = "busy" ∨ status = "index") := by
      rcases hs with h | h | h <;> subst h <;> decide
    refine ⟨_, Set_static_eq status s hn, rfl, ?_⟩
    rcases hs with h | h | h <;> subst h <;> simp

/-- C1 at a concrete state: `Set("Busy")` on a light animator at frame 2 shows
the error asset, and `Set("index")` would show the third busy frame. -/
theorem Set_presents_status_icon_witness :
    (∃ s', Set "Busy" sampleSys = some s' ∧ s'.icon.currentStatus = "Busy" ∧
      s'.host.shown = sampleSys.host.shown ++ [⟨[8], true⟩]) ∧
    (∃ b s', sampleSys.icon.busyIcons.index sampleSys.icon.currentIcon = some b ∧
      Set "index" sampleSys = some s' ∧ s'.icon.currentStatus = "index" ∧
      s'.host.shown = sampleSys.host.shown ++ [⟨b, true⟩]) :=
  ⟨(Set_presents_status_icon "Busy" sampleSys).2.2.2.2 (by decide),
   (Set_presents_status_icon "index" sampleSys).1 (by decide) (by decide)⟩

/-! ## C2 -/

/-- C2. In every state reachable from a constructed animator by `Set`,
`SetTheme` (with any theme string) and ticks, the ticker is running if and only
if the current status is "busy" or "index". The claim takes ticks only while
the ticker runs (`gated = true`); the same holds when stale ticks are handled
too. -/
theorem ticker_running_iff_animated (A : Assets) (gated : Bool) (s : Sys)
    (h : Reachable A gated s) :
    s.icon.ticker.running = true ↔
      (s.icon.currentStatus = "busy" ∨ s.icon.currentStatus = "index") :=
  (Inv_of_Reachable A gated s h).2.1

/-- C2 at the sample state, which is reachable and busy with a running ticker. -/
theorem ticker_running_iff_animated_witness :
    Reachable sampleAssets true sampleSys ∧
    (sampleSys.icon.ticker.running = true ↔
      (sampleSys.icon.currentStatus = "busy" ∨ sampleSys.icon.currentStatus = "index")) :=
  ⟨sampleSys_reachable,
    ticker_running_iff_animated sampleAssets true sampleSys sampleSys_reachable⟩

/-! ## C3 -/

/-- C3. For a theme other than "light" and "dark", `SetTheme` returns an error,
invokes the callback not at all, and leaves the five busy frames, the idle,
pause and error assets, the status, the frame index and the ticker as they
were; every later `Set` then does what it would have done without the call. -/
theorem SetTheme_invalid_changes_nothing (A : Assets) (theme : String) (s : Sys)
    (hl : theme ≠ "light") (hd : theme ≠ "dark") :
    ∃ s' err, SetTheme A theme s = some (s', some err) ∧
      s'.host = s.host ∧
      s'.icon.busyIcons = s.icon.busyIcons ∧
      s'.icon.idleIcon = s.icon.idleIcon ∧
      s'.icon.pauseIcon = s.icon.pauseIcon ∧
      s'.icon.errorIcon = s.icon.errorIcon ∧
      s'.icon.currentStatus = s.icon.currentStatus ∧
      s'.icon.currentIcon = s.icon.currentIcon ∧
      s'.icon.ticker = s.icon.ticker ∧
      ∀ status, Set status s' = Set status s :=
  ⟨_, _, SetTheme_invalid A theme s hl hd, rfl, rfl, rfl, rfl, rfl, rfl, rfl, rfl, fun _ => rfl⟩

/-- C3 at the sample state with the theme "purple". -/
theorem SetTheme_invalid_changes_nothing_witness :
    ∃ s' err, SetTheme sampleAssets "purple" sampleSys = some (s', some err) ∧
      s'.host = sampleSys.host ∧
      s'.icon.busyIcons = sampleSys.icon.busyIcons ∧
      s'.icon.idleIcon = sampleSys.icon.idleIcon ∧
      s'.icon.pauseIcon = sampleSys.icon.pauseIcon ∧
      s'.icon.errorIcon = sampleSys.icon.errorIcon ∧
      s'.icon.currentStatus = sampleSys.icon.currentStatus ∧
      s'.icon.currentIcon = sampleSys.icon.currentIcon ∧
      s'.icon.ticker = sampleSys.icon.ticker ∧
      ∀ status, Set status s' = Set status sampleSys :=
  SetTheme_invalid_changes_nothing sampleAssets "purple" sampleSys (by decide) (by decide)

/-! ## C4 -/

/-- C4. From every state (frame index in `[0,5)`), whatever the theme, status
and frame before: `SetTheme("light")` returns no error and the following
`Set("idle")` invokes the callback with `lightIdle`; likewise
`SetTheme("dark")` and `darkIdle`. -/
theorem SetTheme_then_Set_idle (A : Assets) (s : Sys)
    (hf : 0 ≤ s.icon.currentIcon ∧ s.icon.currentIcon < 5) :
    (∃ s1 s2, SetTheme A "light" s = some (s1, none) ∧ Set "idle" s1 = some s2 ∧
      s2.host.shown = s1.host.shown ++ [⟨A.lightIdle, true⟩]) ∧
    (∃ s1 s2, SetTheme A "dark" s = some (s1, none) ∧ Set "idle" s1 = some s2 ∧
      s2.host.shown = s1.host.shown ++ [⟨A.darkIdle, true⟩]) := by
  constructor
  · obtain ⟨⟨s1, e⟩, h1⟩ := SetTheme_isSome A "light" s hf
    obtain ⟨rfl, hi, _⟩ := SetTheme_light A s s1 e h1
    refine ⟨s1, _, h1, Set_static_eq "idle" s1 (by decide), ?_⟩
    simp [hi, lightTheme]
  · obtain ⟨⟨s1, e⟩, h1⟩ := SetTheme_isSome A "dark" s hf
    obtain ⟨rfl, hi, _⟩ := SetTheme_dark A s s1 e h1
    refine ⟨s1, _, h1, Set_static_eq "idle" s1 (by decide), ?_⟩
    simp [hi, darkTheme]

/-- C4 at the sample state, a busy light animator at frame 2. -/
theorem SetTheme_then_Set_idle_witness :
    (0 ≤ sampleSys.icon.currentIcon ∧ sampleSys.icon.currentIcon < 5) ∧
    (∃ s1 s2, SetTheme sampleAssets "light" sampleSys = some (s1, none) ∧
      Set "idle" s1 = some s2 ∧ s2.host.shown = s1.host.shown ++ [⟨[6], true⟩]) ∧
    (∃ s1 s2, SetTheme sampleAssets "dark" sampleSys = some (s1, none) ∧
      Set "idle" s1 = some s2 ∧ s2.host.shown = s1.host.shown ++ [⟨[16], true⟩]) :=
  ⟨by decide, SetTheme_then_Set_idle sampleAssets sampleSys (by decide)⟩

/-! ## C5 -/

/-- C5. In every state reachable from a constructed animator by `Set`,
`SetTheme` (with any theme string) and ticks (gated or not), the eight assets
of the struct are those of one theme: all light, or all dark. -/
theorem assets_of_one_theme (A : Assets) (gated : Bool) (s : Sys)
    (h : Reachable A gated s) :
    (s.icon.busyIcons = ⟨A.lightBusy1, A.lightBusy2, A.lightBusy3, A.lightBusy4, A.lightBusy5⟩ ∧
      s.icon.idleIcon = A.lightIdle ∧ s.icon.pauseIcon = A.lightPause ∧
      s.icon.errorIcon = A.lightError) ∨
    (s.icon.busyIcons = ⟨A.darkBusy1, A.darkBusy2, A.darkBusy3, A.darkBusy4, A.darkBusy5⟩ ∧
      s.icon.idleIcon = A.darkIdle ∧ s.icon.pauseIcon = A.darkPause ∧
      s.icon.errorIcon = A.darkError) :=
  (Inv_of_Reachable A gated s h).2.2

/-- C5 at the sample state, whose assets are the light ones. -/
theorem assets_of_one_theme_witness :
    Reachable sampleAssets true sampleSys ∧
    ((sampleSys.icon.busyIcons = ⟨[1], [2], [3], [4], [5]⟩ ∧
      sampleSys.icon.idleIcon = [6] ∧ sampleSys.icon.pauseIcon = [7] ∧
      sampleSys.icon.errorIcon = [8]) ∨
    (sampleSys.icon.busyIcons = ⟨[11], [12], [13], [14], [15]⟩ ∧
      sampleSys.icon.idleIcon = [16] ∧ sampleSys.icon.pauseIcon = [17] ∧
      sampleSys.icon.errorIcon = [18])) :=
  ⟨sampleSys_reachable, assets_of_one_theme sampleAssets true sampleSys sampleSys_reachable⟩

/-! ## C6 -/

/-- C6. From a state with frame index `f` in `[0,5)`, whatever the status: one
tick sets the frame index to `(f + 1) % 5`, invokes the callback once with the
busy frame at the new index, and leaves status and assets as they were; `n`
ticks end at frame `(f + n) % 5`, so from frame 0 the frames are
`1, 2, 3, 4, 0, 1, ...`, and five ticks lead back to `f`. -/
theorem tick_advances_frame (s : Sys)
    (hf : 0 ≤ s.icon.currentIcon ∧ s.icon.currentIcon < 5) :
    (∃ b s', loopTick s = some s' ∧
      s'.icon.currentIcon = (s.icon.currentIcon + 1) % 5 ∧
      s'.icon.busyIcons.index s'.icon.currentIcon = some b ∧
      s'.host.shown = s.host.shown ++ [⟨b, true⟩] ∧
      s'.icon.currentStatus = s.icon.currentStatus ∧
      s'.icon.busyIcons = s.icon.busyIcons ∧ s'.icon.idleIcon = s.icon.idleIcon ∧
      s'.icon.pauseIcon = s.icon.pauseIcon ∧ s'.icon.errorIcon = s.icon.errorIcon) ∧
    (∀ n : Nat, ∃ s', ticks n s = some s' ∧
      s'.icon.currentIcon = (s.icon.currentIcon + n) % 5) ∧
    (s.icon.currentIcon = 0 → ∀ n : Nat, ∃ s', ticks n s = some s' ∧
      s'.icon.currentIcon = (n : Int) % 5) ∧
    (∀ n : Nat, ∃ s1 s2, ticks n s = some s1 ∧ ticks (n + 5) s = some s2 ∧
      s2.icon.currentIcon = s1.icon.currentIcon) := by
  refine ⟨?_, ?_, ?_, ?_⟩
  · obtain ⟨b, hb, h⟩ := loopTick_eq s hf
    exact ⟨b, _, h, rfl, hb, rfl, rfl, rfl, rfl, rfl, rfl⟩
  · intro n
    obtain ⟨s', h1, h2, _⟩ := ticks_eq n s hf
    exact ⟨s', h1, h2⟩
  · intro h0 n
    obtain ⟨s', h1, h2, _⟩ := ticks_eq n s hf
    exact ⟨s', h1, by rw [h2, h0, zero_add]⟩
  · intro n
    obtain ⟨s1, h1, h2, _⟩ := ticks_eq n s hf
    obtain ⟨s2, h3, h4, _⟩ := ticks_eq (n + 5) s hf
    refine ⟨s1, s2, h1, h3, ?_⟩
    rw [h2, h4]
    simp only [Nat.cast_add, Nat.cast_ofNat]
    omega

/-- C6 at the sample state, whose frame index is 2. -/
theorem tick_advances_frame_witness :
    (0 ≤ sampleSys.icon.currentIcon ∧ sampleSys.icon.currentIcon < 5) ∧
    (∃ b s', loopTick sampleSys = some s' ∧
      s'.icon.currentIcon = (sampleSys.icon.currentIcon + 1) % 5 ∧
      s'.icon.busyIcons.index s'.icon.currentIcon = some b ∧
      s'.host.shown = sampleSys.host.shown ++ [⟨b, true⟩] ∧
      s'.icon.currentStatus = sampleSys.icon.currentStatus ∧
      s'.icon.busyIcons = sampleSys.icon.busyIcons ∧
      s'.icon.idleIcon = sampleSys.icon.idleIcon ∧
      s'.icon.pauseIcon = sampleSys.icon.pauseIcon ∧
      s'.icon.errorIcon = sampleSys.icon.errorIcon) :=
  ⟨by decide, (tick_advances_frame sampleSys (by decide)).1⟩

/-! ## C7 -/

/-- C7. In every state reachable from a constructed animator by `Set`,
`SetTheme` and ticks (gated or not), the frame index is in `[0,5)`, so that the
lookup `busyIcons[currentIcon]` is defined and neither a tick nor `Set` nor
`SetTheme` panics. -/
theorem frame_index_in_range (A : Assets) (gated : Bool) (s : Sys)
    (h : Reachable A gated s) :
    (0 ≤ s.icon.currentIcon ∧ s.icon.currentIcon < 5) ∧
    (∃ b, s.icon.busyIcons.index s.icon.currentIcon = some b) ∧
    (∃ s', loopTick s = some s') ∧
    (∀ status, ∃ s', Set status s = some s') ∧
    (∀ theme, ∃ r, SetTheme A theme s = some r) := by
  have hf := (Inv_of_Reachable A gated s h).1
  obtain ⟨b, _, hb⟩ := loopTick_eq s hf
  exact ⟨hf, Frames.index_of_inRange _ _ hf.1 hf.2, ⟨_, hb⟩,
    fun status => Set_isSome status s hf, fun theme => SetTheme_isSome A theme s hf⟩

/-- C7 at the sample state. -/
theorem frame_index_in_range_witness :
    Reachable sampleAssets true sampleSys ∧
    (0 ≤ sampleSys.icon.currentIcon ∧ sampleSys.icon.currentIcon < 5) ∧
    (∃ b, sampleSys.icon.busyIcons.index sampleSys.icon.currentIcon = some b) ∧
    (∃ s', loopTick sampleSys = some s') ∧
    (∀ status, ∃ s', Set status sampleSys = some s') ∧
    (∀ theme, ∃ r, SetTheme sampleAssets theme sampleSys = some r) :=
  ⟨sampleSys_reachable, frame_index_in_range sampleAssets true sampleSys sampleSys_reachable⟩

/-! ## C8 -/

/-- C8. `Set` and `SetTheme` never write the frame index: whenever they return,
it is what it was (and with the index in `[0,5)` they do return), whereas a
tick changes it. So `Set("idle")` followed by `Set("busy")` shows the busy
frame at the index where the animation stood, not frame 0. -/
theorem Set_SetTheme_keep_frame (A : Assets) (status theme : String) (s : Sys) :
    (∀ s', Set status s = some s' → s'.icon.currentIcon = s.icon.currentIcon) ∧
    (∀ s' e, SetTheme A theme s = some (s', e) → s'.icon.currentIcon = s.icon.currentIcon) ∧
    (0 ≤ s.icon.currentIcon ∧ s.icon.currentIcon < 5 →
      (∃ s', Set status s = some s') ∧ (∃ r, SetTheme A theme s = some r) ∧
      (∃ s', loopTick s = some s' ∧ s'.icon.currentIcon ≠ s.icon.currentIcon)) ∧
    (∀ b, s.icon.busyIcons.index s.icon.currentIcon = some b →
      ∃ s1 s2, Set "idle" s = some s1 ∧ Set "busy" s1 = some s2 ∧
        s2.icon.currentIcon = s.icon.currentIcon ∧
        s2.host.shown = s1.host.shown ++ [⟨b, true⟩]) := by
  refine ⟨?_, ?_, ?_, ?_⟩
  · intro s' h
    rw [Set_icon status s s' h]
  · intro s' e h
    rcases SetTheme_icon A theme s s' e h with ⟨_, _, hi⟩ | ⟨_, _, hi⟩ | ⟨_, _, _, hi⟩ <;>
      rw [hi] <;> rfl
  · intro hf
    obtain ⟨b, _, hb⟩ := loopTick_eq s hf
    refine ⟨Set_isSome status s hf, SetTheme_isSome A theme s hf, _, hb, ?_⟩
    simp only
    omega
  · intro b hb
    obtain ⟨s1, h1⟩ : ∃ s1, Set "idle" s = some s1 := ⟨_, Set_static_eq "idle" s (by decide)⟩
    have hi := Set_icon "idle" s s1 h1
    obtain ⟨s2, h2, _, h3⟩ := Set_busy_eq "busy" s1 b (Or.inl rfl) (by rw [hi]; exact hb)
    refine ⟨s1, s2, h1, h2, ?_, h3⟩
    rw [Set_icon "busy" s1 s2 h2, hi]

/-- C8 at the sample state (frame 2): after `Set("idle")` and `Set("busy")` the
third busy frame is shown and the frame index is still 2. -/
theorem Set_SetTheme_keep_frame_witness :
    ∃ s1 s2, Set "idle" sampleSys = some s1 ∧ Set "busy" s1 = some s2 ∧
      s2.icon.currentIcon = sampleSys.icon.currentIcon ∧
      s2.host.shown = s1.host.shown ++ [⟨[3], true⟩] :=
  (Set_SetTheme_keep_frame sampleAssets "idle" "dark" sampleSys).2.2.2 [3] (by decide)

/-! ## C9 -/

/-- C9. On an animator whose status is not empty (frame index in `[0,5)`),
`SetTheme("light")` returns no error, puts the light assets in place, and
invokes the callback exactly once, with the icon that `setIcon` selects for the
current status and frame index among the new assets; status, frame index and
ticker stay as they were. Likewise for "dark". -/
theorem SetTheme_rerenders (A : Assets) (s : Sys)
    (hst : s.icon.currentStatus ≠ "")
    (hf : 0 ≤ s.icon.currentIcon ∧ s.icon.currentIcon < 5) :
    (∃ s' b, SetTheme A "light" s = some (s', none) ∧
      s'.icon.busyIcons = ⟨A.lightBusy1, A.lightBusy2, A.lightBusy3, A.lightBusy4, A.lightBusy5⟩ ∧
      s'.icon.idleIcon = A.lightIdle ∧ s'.icon.pauseIcon = A.lightPause ∧
      s'.icon.errorIcon = A.lightError ∧
      s'.icon.currentStatus = s.icon.currentStatus ∧
      s'.icon.currentIcon = s.icon.currentIcon ∧
      s'.icon.ticker = s.icon.ticker ∧
      iconFor s.icon.currentStatus s'.icon = some b ∧
      s'.host.shown = s.host.shown ++ [⟨b, true⟩]) ∧
    (∃ s' b, SetTheme A "dark" s = some (s', none) ∧
      s'.icon.busyIcons = ⟨A.darkBusy1, A.darkBusy2, A.darkBusy3, A.darkBusy4, A.darkBusy5⟩ ∧
      s'.icon.idleIcon = A.darkIdle ∧ s'.icon.pauseIcon = A.darkPause ∧
      s'.icon.errorIcon = A.darkError ∧
      s'.icon.currentStatus = s.icon.currentStatus ∧
      s'.icon.currentIcon = s.icon.currentIcon ∧
      s'.icon.ticker = s.icon.ticker ∧
      iconFor s.icon.currentStatus s'.icon = some b ∧
      s'.host.shown = s.host.shown ++ [⟨b, true⟩]) := by
  constructor
  · obtain ⟨b, hb⟩ := iconFor_isSome s.icon.currentStatus (lightTheme A s.icon) hf
    exact ⟨_, b, SetTheme_light_eq A s b hst hb, rfl, rfl, rfl, rfl, rfl, rfl, rfl, hb, rfl⟩
  · obtain ⟨b, hb⟩ := iconFor_isSome s.icon.currentStatus (darkTheme A s.icon) hf
    exact ⟨_, b, SetTheme_dark_eq A s b hst hb, rfl, rfl, rfl, rfl, rfl, rfl, rfl, hb, rfl⟩

/-- C9 at the sample state: switching the busy light animator at frame 2 to
"dark" shows the third dark busy frame. -/
theorem SetTheme_rerenders_witness :
    sampleSys.icon.currentStatus ≠ "" ∧
    ∃ s' b, SetTheme sampleAssets "dark" sampleSys = some (s', none) ∧
      s'.icon.busyIcons = ⟨[11], [12], [13], [14], [15]⟩ ∧
      s'.icon.idleIcon = [16] ∧ s'.icon.pauseIcon = [17] ∧
      s'.icon.errorIcon = [18] ∧
      s'.icon.currentStatus = sampleSys.icon.currentStatus ∧
      s'.icon.currentIcon = sampleSys.icon.currentIcon ∧
      s'.icon.ticker = sampleSys.icon.ticker ∧
      iconFor sampleSys.icon.currentStatus s'.icon = some b ∧
      s'.host.shown = sampleSys.host.shown ++ [⟨b, true⟩] :=
  ⟨by decide, (SetTheme_rerenders sampleAssets sampleSys (by decide) (by decide)).2⟩

/-! ## C10 -/

/-- C10. When the temporary file is created (at `path`) and written,
`NewIcon("light", cb)` returns an animator and no error: its status is empty,
its frame index 0, its ticker stopped, its assets the light ones, and
`NotifyIcon` is `path`, where the file now holds `yd128`; the loop has been
started and `cb` has been invoked exactly once, with `lightPause`. Likewise for
"dark" with the dark assets and `darkPause`. -/
theorem NewIcon_succeeds (A : Assets) (h : Host) (path : String)
    (ht : h.tempOutcome = .created path) (hw : h.writeOutcome = none) :
    (∃ i host, NewIcon A "light" h = some ⟨some i, none, host⟩ ∧
      i.currentStatus = "" ∧ i.currentIcon = 0 ∧ i.ticker.running = false ∧
      i.busyIcons = ⟨A.lightBusy1, A.lightBusy2, A.lightBusy3, A.lightBusy4, A.lightBusy5⟩ ∧
      i.idleIcon = A.lightIdle ∧ i.pauseIcon = A.lightPause ∧ i.errorIcon = A.lightError ∧
      i.NotifyIcon = path ∧ host.files.lookup path = some A.yd128 ∧
      host.loops = h.loops + 1 ∧
      host.shown = h.shown ++ [⟨A.lightPause, false⟩]) ∧
    (∃ i host, NewIcon A "dark" h = some ⟨some i, none, host⟩ ∧
      i.currentStatus = "" ∧ i.currentIcon = 0 ∧ i.ticker.running = false ∧
      i.busyIcons = ⟨A.darkBusy1, A.darkBusy2, A.darkBusy3, A.darkBusy4, A.darkBusy5⟩ ∧
      i.idleIcon = A.darkIdle ∧ i.pauseIcon = A.darkPause ∧ i.errorIcon = A.darkError ∧
      i.NotifyIcon = path ∧ host.files.lookup path = some A.yd128 ∧
      host.loops = h.loops + 1 ∧
      host.shown = h.shown ++ [⟨A.darkPause, false⟩]) :=
  ⟨⟨_, _, NewIcon_light_eq A h path ht hw, rfl, rfl, rfl, rfl, rfl, rfl, rfl, rfl,
      by simp [List.lookup], rfl, rfl⟩,
   ⟨_, _, NewIcon_dark_eq A h path ht hw, rfl, rfl, rfl, rfl, rfl, rfl, rfl, rfl,
      by simp [List.lookup], rfl, rfl⟩⟩

/-- C10 on the sample host, for the light theme. -/
theorem NewIcon_succeeds_witness :
    ∃ i host, NewIcon sampleAssets "light" sampleHost = some ⟨some i, none, host⟩ ∧
      i.currentStatus = "" ∧ i.currentIcon = 0 ∧ i.ticker.running = false ∧
      i.busyIcons = ⟨[1], [2], [3], [4], [5]⟩ ∧
      i.idleIcon = [6] ∧ i.pauseIcon = [7] ∧ i.errorIcon = [8] ∧
      i.NotifyIcon = "/tmp/yd_notify_icon1.png" ∧
      host.files.lookup "/tmp/yd_notify_icon1.png" = some [0] ∧
      host.loops = sampleHost.loops + 1 ∧
      host.shown = sampleHost.shown ++ [⟨[7], false⟩] :=
  (NewIcon_succeeds sampleAssets sampleHost "/tmp/yd_notify_icon1.png" rfl rfl).1

/-- `NewIcon` when `os.CreateTemp` fails. -/
theorem NewIcon_temp_failed (A : Assets) (theme : String) (h : Host) (err : String)
    (ht : h.tempOutcome = .failed err) :
    NewIcon A theme h = some ⟨none, some ("icon store error: " ++ err), h⟩ := by
  simp [NewIcon, CreateTemp, ht]

/-- `NewIcon` when the file is created and `file.Write` fails. -/
theorem NewIcon_write_failed (A : Assets) (theme : String) (h : Host) (path : String)
    (r : Nat × String) (ht : h.tempOutcome = .created path) (hw : h.writeOutcome = some r) :
    NewIcon A theme h = some ⟨none, some ("icon store error: " ++ r.2),
      { h with files := (path, A.yd128.take r.1) ::
          h.files.map (fun f => if f.1 = path then (path, A.yd128.take r.1) else f) }⟩ := by
  simp [NewIcon, CreateTemp, fileWrite, ht, hw]

/-- `NewIcon` with an unknown theme when the file is created and written. -/
theorem NewIcon_wrong_theme (A : Assets) (theme : String) (h : Host) (path : String)
    (hl : theme ≠ "light") (hd : theme ≠ "dark")
    (ht : h.tempOutcome = .created path) (hw : h.writeOutcome = none) :
    NewIcon A theme h = some ⟨none, some (wrongTheme theme),
      { h with files := (path, A.yd128) ::
          h.files.map (fun f => if f.1 = path then (path, A.yd128) else f) }⟩ := by
  simp [NewIcon, CreateTemp, fileWrite, ht, hw, SetTheme_invalid A theme _ hl hd]

/-! ## C11 -/

/-- C11. For a theme other than "light" and "dark", `NewIcon` returns no
animator and an error, invokes the callback not at all and starts no loop,
whatever happens to the temporary file. For "light" and "dark" it returns an
error exactly when creating the file fails or, the file created, writing it
fails; then too it returns no animator, invokes the callback not at all and
starts no loop. -/
theorem NewIcon_failure (A : Assets) (theme : String) (h : Host) :
    (theme ≠ "light" → theme ≠ "dark" →
      ∃ err host, NewIcon A theme h = some ⟨none, some err, host⟩ ∧
        host.shown = h.shown ∧ host.loops = h.loops) ∧
    (theme = "light" ∨ theme = "dark" →
      ∃ c, NewIcon A theme h = some c ∧
        (c.err ≠ none ↔
          ((∃ err, h.tempOutcome = .failed err) ∨
           (∃ path r, h.tempOutcome = .created path ∧ h.writeOutcome = some r))) ∧
        (c.err ≠ none → c.icon = none ∧ c.host.shown = h.shown ∧ c.host.loops = h.loops)) := by
  constructor
  · intro hl hd
    cases ht : h.tempOutcome with
    | failed err => exact ⟨_, _, NewIcon_temp_failed A theme h err ht, rfl, rfl⟩
    | created path =>
      cases hw : h.writeOutcome with
      | some r => exact ⟨_, _, NewIcon_write_failed A theme h path r ht hw, rfl, rfl⟩
      | none => exact ⟨_, _, NewIcon_wrong_theme A theme h path hl hd ht hw, rfl, rfl⟩
  · intro hth
    cases ht : h.tempOutcome with
    | failed err =>
      refine ⟨_, NewIcon_temp_failed A theme h err ht, ?_, fun _ => ⟨rfl, rfl, rfl⟩⟩
      simp
    | created path =>
      cases hw : h.writeOutcome with
      | some r =>
        refine ⟨_, NewIcon_write_failed A theme h path r ht hw, ?_,
          fun _ => ⟨rfl, rfl, rfl⟩⟩
        simp
      | none =>
        rcases hth with rfl | rfl
        · refine ⟨_, NewIcon_light_eq A h path ht hw, ?_, fun hne => absurd rfl hne⟩
          simp
        · refine ⟨_, NewIcon_dark_eq A h path ht hw, ?_, fun hne => absurd rfl hne⟩
          simp

/-- C11 on the sample host with the theme "purple": the file is created and
written, and still no animator is returned. -/
theorem NewIcon_failure_witness :
    ∃ err host, NewIcon sampleAssets "purple" sampleHost = some ⟨none, some err, host⟩ ∧
      host.shown = sampleHost.shown ∧ host.loops = sampleHost.loops :=
  (NewIcon_failure sampleAssets "purple" sampleHost).1 (by decide) (by decide)

/-! ## C12 -/

/-- C12. From the same state, `Set("busy")` and `Set("index")` differ in the
recorded status only: one result is the other with the status replaced; with
the frame index in `[0,5)` both return and both invoke the callback with
`busyIcons[currentIcon]`. `Set("none")` and `Set("paused")` both show the pause
asset and both leave the ticker stopped. -/
theorem Set_busy_index_alike (s : Sys) :
    (Set "index" s = (Set "busy" s).map
      (fun s' => { s' with icon := { s'.icon with currentStatus := "index" } })) ∧
    (0 ≤ s.icon.currentIcon ∧ s.icon.currentIcon < 5 →
      ∃ b s1 s2, s.icon.busyIcons.index s.icon.currentIcon = some b ∧
        Set "busy" s = some s1 ∧ Set "index" s = some s2 ∧
        s1.host.shown = s.host.shown ++ [⟨b, true⟩] ∧
        s2.host.shown = s.host.shown ++ [⟨b, true⟩] ∧
        s1.icon.ticker = s2.icon.ticker ∧
        s1.icon.currentIcon = s2.icon.currentIcon ∧
        s1.icon.busyIcons = s2.icon.busyIcons ∧ s1.icon.idleIcon = s2.icon.idleIcon ∧
        s1.icon.pauseIcon = s2.icon.pauseIcon ∧ s1.icon.errorIcon = s2.icon.errorIcon) ∧
    (∃ s1 s2, Set "none" s = some s1 ∧ Set "paused" s = some s2 ∧
      s1.host.shown = s.host.shown ++ [⟨s.icon.pauseIcon, true⟩] ∧
      s2.host.shown = s.host.shown ++ [⟨s.icon.pauseIcon, true⟩] ∧
      s1.icon.ticker.running = false ∧ s2.icon.ticker.running = false) := by
  refine ⟨?_, ?_, ?_⟩
  · cases hb : s.icon.busyIcons.index s.icon.currentIcon with
    | none =>
      by_cases hc : s.icon.currentStatus ≠ "busy" ∧ s.icon.currentStatus ≠ "index" <;>
        simp [Set, setIcon, Lock, hc, hb]
    | some b =>
      by_cases hc : s.icon.currentStatus ≠ "busy" ∧ s.icon.currentStatus ≠ "index" <;>
        simp [Set, setIcon, Lock, Unlock, setFunc, hc, hb]
  · intro hf
    obtain ⟨b, hb⟩ := Frames.index_of_inRange s.icon.busyIcons _ hf.1 hf.2
    obtain ⟨s1, h1, _, h1s⟩ := Set_busy_eq "busy" s b (Or.inl rfl) hb
    obtain ⟨s2, h2, _, h2s⟩ := Set_busy_eq "index" s b (Or.inr rfl) hb
    have i1 := Set_icon "busy" s s1 h1
    have i2 := Set_icon "index" s s2 h2
    refine ⟨b, s1, s2, hb, h1, h2, h1s, h2s, ?_, ?_, ?_, ?_, ?_, ?_⟩
    all_goals rw [i1, i2]
    simp
  · refine ⟨_, _, Set_static_eq "none" s (by decide), Set_static_eq "paused" s (by decide),
      ?_, ?_, rfl, rfl⟩ <;> simp

/-- C12 at the sample state: `Set("busy")` and `Set("index")` both show the
third busy frame. -/
theorem Set_busy_index_alike_witness :
    ∃ b s1 s2, sampleSys.icon.busyIcons.index sampleSys.icon.currentIcon = some b ∧
      Set "busy" sampleSys = some s1 ∧ Set "index" sampleSys = some s2 ∧
      s1.host.shown = sampleSys.host.shown ++ [⟨b, true⟩] ∧
      s2.host.shown = sampleSys.host.shown ++ [⟨b, true⟩] ∧
      s1.icon.ticker = s2.icon.ticker ∧
      s1.icon.currentIcon = s2.icon.currentIcon ∧
      s1.icon.busyIcons = s2.icon.busyIcons ∧ s1.icon.idleIcon = s2.icon.idleIcon ∧
      s1.icon.pauseIcon = s2.icon.pauseIcon ∧ s1.icon.errorIcon = s2.icon.errorIcon :=
  (Set_busy_index_alike sampleSys).2.1 (by decide)

/-- After the entries of a path are filtered out, the path is not found. -/
theorem lookup_filter_ne (path : String) (l : List (String × Bytes)) :
    (l.filter (fun f => f.1 ≠ path)).lookup path = none := by
  induction l with
  | nil => rfl
  | cons f l ih =>
    obtain ⟨k, v⟩ := f
    by_cases hf : k = path
    · rw [List.filter_cons_of_neg (by simp [hf])]
      exact ih
    · rw [List.filter_cons_of_pos (by simp [hf]), List.lookup_cons]
      have hne : (path == k) = false := by
        simp only [beq_eq_false_iff_ne, ne_eq]
        exact fun h0 => hf h0.symm
      simp only [hne, ih]

/-- The struct after `CleanUp`: the ticker stopped and the context cancelled. -/
theorem CleanUp_icon (s : Sys) :
    (CleanUp s).1.icon = { s.icon with ticker := s.icon.ticker.Stop, ctxDone := true } := by
  unfold CleanUp
  simp only
  split <;> rfl

/-- The surroundings and the error after `CleanUp` are those of `os.Remove`. -/
theorem CleanUp_host (s : Sys) :
    (CleanUp s).1.host = (Remove s.icon.NotifyIcon s.host).2 ∧
    (CleanUp s).2 = (Remove s.icon.NotifyIcon s.host).1.map (fun e => "icon remove error: " ++ e) := by
  unfold CleanUp
  simp only
  split <;> rename_i h <;> simp [h]

/-- `CleanUp` when no file exists at `NotifyIcon`. -/
theorem CleanUp_missing (s : Sys) (h : s.host.files.lookup s.icon.NotifyIcon = none) :
    CleanUp s =
      ({ s with icon := { s.icon with ticker := s.icon.ticker.Stop, ctxDone := true } },
        some ("icon remove error: " ++
          ("remove " ++ s.icon.NotifyIcon ++ ": no such file or directory"))) := by
  simp [CleanUp, Remove, h]

/-- After a `CleanUp` that returned `nil`, no file exists at `NotifyIcon`. -/
theorem CleanUp_nil_removes (s : Sys) (h : (CleanUp s).2 = none) :
    (CleanUp s).1.host.files.lookup (CleanUp s).1.icon.NotifyIcon = none := by
  have hh := CleanUp_host s
  rw [hh.2] at h
  rw [hh.1, CleanUp_icon]
  simp only [Remove] at h ⊢
  cases hl : s.host.files.lookup s.icon.NotifyIcon with
  | none => simp [hl] at h
  | some d =>
    cases hr : s.host.removeOutcome with
    | some e => simp [hl, hr] at h
    | none =>
      simp only [hl, hr]
      exact lookup_filter_ne _ _

/-- With no file at `NotifyIcon`, every `CleanUp` in a row returns an error. -/
theorem cleanUps_missing (n : Nat) (s : Sys)
    (h : s.host.files.lookup s.icon.NotifyIcon = none) :
    ∀ r ∈ cleanUps n s, r ≠ none := by
  induction n generalizing s with
  | zero => simp [cleanUps]
  | succ n ih =>
    intro r hr
    simp only [cleanUps, List.mem_cons] at hr
    rcases hr with rfl | hr
    · rw [CleanUp_missing s h]
      simp
    · refine ih (CleanUp s).1 ?_ r hr
      rw [CleanUp_missing s h]
      exact h

/-! ## C13 -/

/-- C13. `CleanUp` makes three calls in this order: `ticker.Stop`, `stopper`,
`os.Remove(NotifyIcon)`; the deletion is attempted in a state in which the
ticker is already stopped and the cancellation already raised. It returns an
error if and only if `os.Remove` fails, and whether or not the deletion fails,
on return the ticker is stopped and the loop cancelled. -/
theorem CleanUp_stops_then_removes (s : Sys) :
    (CleanUpTrace s).2 = CleanUp s ∧
    (∃ s1 s2 : Sys,
      (CleanUpTrace s).1 =
        [(.tickerStop, s), (.stopper, s1), (.osRemove s.icon.NotifyIcon, s2)] ∧
      s1.icon.ticker.running = false ∧ s1.icon.ctxDone = s.icon.ctxDone ∧
      s2.icon.ticker.running = false ∧ s2.icon.ctxDone = true ∧
      s2.host = s.host ∧ s2.icon.NotifyIcon = s.icon.NotifyIcon) ∧
    ((CleanUp s).2 ≠ none ↔ (Remove s.icon.NotifyIcon s.host).1 ≠ none) ∧
    (CleanUp s).1.icon.ticker.running = false ∧
    (CleanUp s).1.icon.ctxDone = true := by
  have hi := CleanUp_icon s
  have hh := CleanUp_host s
  refine ⟨?_, ⟨{ s with icon := { s.icon with ticker := s.icon.ticker.Stop } },
    { s with icon := { s.icon with ticker := s.icon.ticker.Stop, ctxDone := true } },
    ?_, rfl, rfl, rfl, rfl, rfl, rfl⟩, ?_, ?_, ?_⟩
  · unfold CleanUpTrace CleanUp
    simp only
    split <;> rfl
  · unfold CleanUpTrace
    simp only
    split <;> rfl
  · rw [hh.2]
    cases (Remove s.icon.NotifyIcon s.host).1 <;> simp
  · rw [hi]
    rfl
  · rw [hi]

/-! ## C14 -/

/-- C14. A second `CleanUp` (a total function: it cannot panic) leaves the
struct exactly as the first call left it: ticker stopped, cancellation raised,
status, frame index and assets as before; and it invokes the callback not at
all. -/
theorem CleanUp_twice (s : Sys) :
    (CleanUp (CleanUp s).1).1.icon = (CleanUp s).1.icon ∧
    (CleanUp (CleanUp s).1).1.icon.ticker.running = false ∧
    (CleanUp (CleanUp s).1).1.icon.ctxDone = true ∧
    (CleanUp (CleanUp s).1).1.icon.currentStatus = s.icon.currentStatus ∧
    (CleanUp (CleanUp s).1).1.icon.currentIcon = s.icon.currentIcon ∧
    (CleanUp (CleanUp s).1).1.icon.busyIcons = s.icon.busyIcons ∧
    (CleanUp (CleanUp s).1).1.icon.idleIcon = s.icon.idleIcon ∧
    (CleanUp (CleanUp s).1).1.icon.pauseIcon = s.icon.pauseIcon ∧
    (CleanUp (CleanUp s).1).1.icon.errorIcon = s.icon.errorIcon ∧
    (CleanUp (CleanUp s).1).1.host.shown = s.host.shown := by
  have hshown : ∀ t : Sys, (CleanUp t).1.host.shown = t.host.shown := by
    intro t
    rw [(CleanUp_host t).1]
    simp only [Remove]
    split
    · rfl
    · split <;> rfl
  rw [hshown, hshown, CleanUp_icon (CleanUp s).1, CleanUp_icon s]
  exact ⟨rfl, rfl, rfl, rfl, rfl, rfl, rfl, rfl, rfl, rfl⟩

/-- What `Set` shows: one invocation under the mutex, with `iconFor`. -/
theorem Set_shown (status : String) (s s' : Sys) (h : Set status s = some s') :
    ∃ b, iconFor status s.icon = some b ∧ s'.host.shown = s.host.shown ++ [⟨b, true⟩] := by
  by_cases hs : status = "busy" ∨ status = "index"
  · cases hb : s.icon.busyIcons.index s.icon.currentIcon with
    | none =>
      by_cases hc : s.icon.currentStatus ≠ "busy" ∧ s.icon.currentStatus ≠ "index" <;>
        simp [Set, setIcon, Lock, hs, hc, hb] at h
    | some b =>
      obtain ⟨s1, h1, _, h2⟩ := Set_busy_eq status s b hs hb
      rw [h1] at h
      cases h
      exact ⟨b, by simp [iconFor, hs, hb], h2⟩
  · rw [Set_static_eq status s hs] at h
    cases h
    exact ⟨_, by simp only [iconFor, hs, if_false]; split_ifs <;> rfl, rfl⟩

/-- What `SetTheme` shows on an animator whose status is set, for a known
theme: one invocation under the mutex, with `iconFor` on the new assets. -/
theorem SetTheme_shown (A : Assets) (theme : String) (s s' : Sys) (e : Option String)
    (hth : theme = "light" ∨ theme = "dark") (hst : s.icon.currentStatus ≠ "")
    (h : SetTheme A theme s = some (s', e)) :
    ∃ b, iconFor s.icon.currentStatus s'.icon = some b ∧
      s'.host.shown = s.host.shown ++ [⟨b, true⟩] := by
  rcases hth with rfl | rfl
  · cases hb : iconFor s.icon.currentStatus (lightTheme A s.icon) with
    | none =>
      have hb' : iconFor s.icon.currentStatus
          (lightTheme A { s.icon with lock := true }) = none := hb
      simp only [lightTheme] at hb'
      simp [SetTheme, Lock, setIcon_eq, lightTheme, hst, hb'] at h
    | some b =>
      rw [SetTheme_light_eq A s b hst hb] at h
      cases h
      exact ⟨b, hb, rfl⟩
  · cases hb : iconFor s.icon.currentStatus (darkTheme A s.icon) with
    | none =>
      have hb' : iconFor s.icon.currentStatus
          (darkTheme A { s.icon with lock := true }) = none := hb
      simp only [darkTheme] at hb'
      simp [SetTheme, Lock, setIcon_eq, darkTheme, hst, hb'] at h
    | some b =>
      rw [SetTheme_dark_eq A s b hst hb] at h
      cases h
      exact ⟨b, hb, rfl⟩

/-- A known theme on an animator whose status is empty: the assets are
replaced and nothing is shown. -/
theorem SetTheme_empty_status (A : Assets) (s : Sys) (hst : s.icon.currentStatus = "") :
    SetTheme A "light" s =
      some ({ s with icon := { lightTheme A s.icon with lock := false } }, none) ∧
    SetTheme A "dark" s =
      some ({ s with icon := { darkTheme A s.icon with lock := false } }, none) := by
  constructor
  · simp [SetTheme, Lock, Unlock, lightTheme, hst]
  · simp [SetTheme, Lock, Unlock, darkTheme, hst]

/-- What `SetTheme` adds to the history of the callback: nothing, or one
invocation under the mutex. -/
theorem SetTheme_adds (A : Assets) (theme : String) (s s' : Sys) (e : Option String)
    (h : SetTheme A theme s = some (s', e)) :
    s'.host.shown = s.host.shown ∨ ∃ b, s'.host.shown = s.host.shown ++ [⟨b, true⟩] := by
  by_cases hth : theme = "light" ∨ theme = "dark"
  · by_cases hst : s.icon.currentStatus = ""
    · left
      rcases hth with rfl | rfl
      · rw [(SetTheme_empty_status A s hst).1] at h
        cases h
        rfl
      · rw [(SetTheme_empty_status A s hst).2] at h
        cases h
        rfl
    · obtain ⟨b, _, hb⟩ := SetTheme_shown A theme s s' e hth hst h
      exact Or.inr ⟨b, hb⟩
  · left
    rw [SetTheme_invalid A theme s (fun h0 => hth (Or.inl h0)) (fun h0 => hth (Or.inr h0))] at h
    cases h
    rfl

/-- What the tick case of `loop` does when it does not panic. -/
theorem loopTick_some (s s' : Sys) (h : loopTick s = some s') :
    ∃ b, s'.icon.busyIcons.index s'.icon.currentIcon = some b ∧
      s'.host.shown = s.host.shown ++ [⟨b, true⟩] ∧
      s'.icon = { s.icon with
        lock := false, currentIcon := Int.tmod (wrapInt (s.icon.currentIcon + 1)) 5 } := by
  simp only [loopTick, Lock] at h
  split at h
  · rename_i b hb
    cases h
    exact ⟨b, hb, rfl, rfl⟩
  · cases h

/-- Every operation on a constructed animator only adds invocations made under
the mutex. -/
theorem step_adds_locked (A : Assets) (gated : Bool) (op : Op) (s s' : Sys)
    (h : step A gated op s = some s') :
    ∃ rest, s'.host.shown = s.host.shown ++ rest ∧ ∀ call ∈ rest, call.locked = true := by
  cases op with
  | set status =>
    obtain ⟨b, _, hb⟩ := Set_shown status s s' h
    exact ⟨[⟨b, true⟩], hb, by simp⟩
  | setTheme theme =>
    simp only [step, Option.map_eq_some', Prod.exists, exists_and_right, exists_eq_right] at h
    obtain ⟨e, he⟩ := h
    rcases SetTheme_adds A theme s s' e he with hs | ⟨b, hb⟩
    · exact ⟨[], by simp [hs], by simp⟩
    · exact ⟨[⟨b, true⟩], hb, by simp⟩
  | tick =>
    simp only [step] at h
    split_ifs at h
    obtain ⟨b, _, hb, _⟩ := loopTick_some s s' h
    exact ⟨[⟨b, true⟩], hb, by simp⟩

/-- A run of operations only adds invocations made under the mutex. -/
theorem run_adds_locked (A : Assets) (gated : Bool) (ops : List Op) (s s' : Sys)
    (h : run A gated ops s = some s') :
    ∃ rest, s'.host.shown = s.host.shown ++ rest ∧ ∀ call ∈ rest, call.locked = true := by
  induction ops generalizing s with
  | nil =>
    simp only [run, Option.some.injEq] at h
    exact ⟨[], by simp [h], by simp⟩
  | cons op ops ih =>
    simp only [run, Option.bind_eq_some] at h
    obtain ⟨s1, h1, h2⟩ := h
    obtain ⟨r1, hr1, hl1⟩ := step_adds_locked A gated op s s1 h1
    obtain ⟨r2, hr2, hl2⟩ := ih s1 h2
    refine ⟨r1 ++ r2, by rw [hr2, hr1, List.append_assoc], ?_⟩
    intro call hc
    rcases List.mem_append.mp hc with hc | hc
    · exact hl1 call hc
    · exact hl2 call hc

/-- The one invocation that `NewIcon` makes is made without the mutex. -/
theorem NewIcon_shown (A : Assets) (theme : String) (h : Host) (c : Created) (i : Icon)
    (hc : NewIcon A theme h = some c) (hi : c.icon = some i) :
    c.host.shown = h.shown ++ [⟨i.pauseIcon, false⟩] ∧ i.currentStatus = "" := by
  obtain ⟨path, ht, hw, hth⟩ := NewIcon_some A theme h c i hc hi
  rcases hth with rfl | rfl
  · rw [NewIcon_light_eq A h path ht hw] at hc
    cases hc
    cases hi
    exact ⟨rfl, rfl⟩
  · rw [NewIcon_dark_eq A h path ht hw] at hc
    cases hc
    cases hi
    exact ⟨rfl, rfl⟩

/-! ## C15 -/

/-- C15, as stated, fails: the one invocation of the callback that
`NewIcon("light", cb)` makes on the sample host, with the light pause asset,
is made while the mutex is not held. -/
theorem callback_under_lock_counterexample :
    ∃ c i, NewIcon sampleAssets "light" sampleHost = some c ∧ c.icon = some i ∧
      c.host.shown = [⟨[7], false⟩] :=
  ⟨_, _, NewIcon_light_eq sampleAssets sampleHost "/tmp/yd_notify_icon1.png" rfl rfl, rfl, rfl⟩

/-- C15, amended. Of the invocations of the callback made by a constructed
animator, the first, the initial presentation of the pause asset in `NewIcon`,
is made without the mutex; every later one, made by `Set`, by the re-render of
`SetTheme` or by a tick, is made while the mutex is held. -/
theorem callbacks_locked_after_construction (A : Assets) (theme : String) (h : Host)
    (c : Created) (i : Icon) (gated : Bool) (ops : List Op) (s : Sys)
    (hc : NewIcon A theme h = some c) (hi : c.icon = some i)
    (hr : run A gated ops ⟨i, c.host⟩ = some s) :
    ∃ rest, s.host.shown = h.shown ++ ⟨i.pauseIcon, false⟩ :: rest ∧
      ∀ call ∈ rest, call.locked = true := by
  obtain ⟨rest, h1, h2⟩ := run_adds_locked A gated ops ⟨i, c.host⟩ s hr
  refine ⟨rest, ?_, h2⟩
  rw [h1]
  simp only [(NewIcon_shown A theme h c i hc hi).1, List.append_assoc, List.singleton_append]

/-- C15, amended, on the run that leads to the sample state. -/
theorem callbacks_locked_after_construction_witness :
    ∃ rest, sampleSys.host.shown = sampleHost.shown ++ ⟨[7], false⟩ :: rest ∧
      ∀ call ∈ rest, call.locked = true :=
  callbacks_locked_after_construction sampleAssets "light" sampleHost _ _ true
    [.set "busy", .tick, .tick] sampleSys
    (NewIcon_light_eq sampleAssets sampleHost "/tmp/yd_notify_icon1.png" rfl rfl) rfl
    (by decide)

/-- With the ticker stopped, one action of the loop either handles the tick it
had already received, showing one frame, or shows nothing; and it leaves the
ticker stopped. -/
theorem loop_act_stopped (A : Assets) (a : Act) (c c' : Conc) (ha : a.ofLoop = true)
    (hs : c.sys.icon.ticker.running = false) (h : act A a c = some c') :
    c'.sys.icon.ticker.running = false ∧
    ((c.loop = .gotTick ∧ c'.loop ≠ .gotTick ∧
        ∃ b, c'.sys.host.shown = c.sys.host.shown ++ [⟨b, true⟩]) ∨
     (c.loop ≠ .gotTick ∧ c'.loop ≠ .gotTick ∧ c'.sys.host.shown = c.sys.host.shown)) := by
  cases a with
  | set status => cases ha
  | setTheme theme => cases ha
  | cleanUp => cases ha
  | recv =>
    simp only [act] at h
    split_ifs at h with hc
    rw [hs] at hc
    exact absurd hc.2 (by decide)
  | handle =>
    simp only [act] at h
    split_ifs at h with hc
    simp only [Option.map_eq_some'] at h
    obtain ⟨s', hs', rfl⟩ := h
    obtain ⟨b, _, hb, hi⟩ := loopTick_some c.sys s' hs'
    refine ⟨?_, Or.inl ⟨hc, by simp, b, hb⟩⟩
    simp only [hi]
    exact hs
  | finish =>
    simp only [act] at h
    split_ifs at h with hc
    cases h
    exact ⟨hs, Or.inr ⟨by rw [hc.1]; decide, by simp, rfl⟩⟩

/-- With the ticker stopped, a schedule of loop actions shows at most one more
frame, and none unless the loop had already received a tick. -/
theorem loop_exec_stopped (A : Assets) (as : List Act) (c c' : Conc)
    (hl : ∀ a ∈ as, a.ofLoop = true) (hs : c.sys.icon.ticker.running = false)
    (h : exec A as c = some c') :
    ∃ extra, c'.sys.host.shown = c.sys.host.shown ++ extra ∧ extra.length ≤ 1 ∧
      (c.loop ≠ .gotTick → extra = []) := by
  induction as generalizing c with
  | nil =>
    simp only [exec, Option.some.injEq] at h
    exact ⟨[], by simp [h], by simp, fun _ => rfl⟩
  | cons a as ih =>
    simp only [exec, Option.bind_eq_some] at h
    obtain ⟨c1, h1, h2⟩ := h
    obtain ⟨hs1, hcase⟩ := loop_act_stopped A a c c1 (hl a (List.mem_cons_self a as)) hs h1
    obtain ⟨extra, he, _, hnil⟩ :=
      ih c1 (fun b hb => hl b (List.mem_cons_of_mem a hb)) hs1 h2
    rcases hcase with ⟨hg, hn, b, hb⟩ | ⟨hg, hn, hb⟩
    · refine ⟨[⟨b, true⟩], ?_, by simp, fun h0 => absurd hg h0⟩
      rw [he, hnil hn, hb, List.append_nil]
    · refine ⟨[], ?_, by simp, fun _ => rfl⟩
      rw [he, hnil hn, hb]

/-- The display property of C17: when a status is set, the bytes last shown are
those that `setIcon` selects for the status, frame index and assets. -/
theorem display_step (A : Assets) (op : Op) (s s' : Sys) (hinv : Inv A s.icon)
    (hd : s.icon.currentStatus ≠ "" →
      ∃ b, iconFor s.icon.currentStatus s.icon = some b ∧
        s.host.shown.getLast?.map Call.icon = some b)
    (h : step A true op s = some s') :
    s'.icon.currentStatus ≠ "" →
      ∃ b, iconFor s'.icon.currentStatus s'.icon = some b ∧
        s'.host.shown.getLast?.map Call.icon = some b := by
  intro hst
  cases op with
  | set status =>
    obtain ⟨b, hb, hsh⟩ := Set_shown status s s' h
    refine ⟨b, ?_, by simp [hsh]⟩
    rw [Set_icon status s s' h]
    exact hb
  | setTheme theme =>
    simp only [step, Option.map_eq_some', Prod.exists, exists_and_right, exists_eq_right] at h
    obtain ⟨e, he⟩ := h
    have hsame : s'.icon.currentStatus = s.icon.currentStatus := by
      rcases SetTheme_icon A theme s s' e he with ⟨_, _, hi⟩ | ⟨_, _, hi⟩ | ⟨_, _, _, hi⟩ <;>
        rw [hi] <;> rfl
    rw [hsame] at hst ⊢
    by_cases hth : theme = "light" ∨ theme = "dark"
    · obtain ⟨b, hb, hsh⟩ := SetTheme_shown A theme s s' e hth hst he
      exact ⟨b, hb, by simp [hsh]⟩
    · rw [SetTheme_invalid A theme s (fun h0 => hth (Or.inl h0))
        (fun h0 => hth (Or.inr h0))] at he
      cases he
      exact hd hst
  | tick =>
    simp only [step] at h
    split_ifs at h with hc
    have hrun : s.icon.ticker.running = true := by
      cases hr : s.icon.ticker.running with
      | true => rfl
      | false => exact absurd ⟨trivial, hr⟩ hc
    have hbusy := hinv.2.1.mp hrun
    obtain ⟨b, hb, hsh, hi⟩ := loopTick_some s s' h
    refine ⟨b, ?_, by simp [hsh]⟩
    have hst' : s'.icon.currentStatus = s.icon.currentStatus := by rw [hi]
    rw [hst']
    simp only [iconFor, hbusy, if_true]
    exact hb

/-! ## C16 -/

/-- C16, as stated, fails. On the sample host: `NewIcon("light", cb)`,
`Set("busy")`, the loop receives a tick, `CleanUp()` runs and returns; two
invocations of the callback have been made. Then the loop runs the body of the
tick case and a third invocation, with the second busy frame, takes place
after `CleanUp` has returned. -/
theorem shutdown_race_counterexample :
    (NewIcon sampleAssets "light" sampleHost).bind start = some sampleStart ∧
    (exec sampleAssets [.set "busy", .recv, .cleanUp] sampleStart).map
      (fun c => (c.sys.host.shown, c.sys.icon.ticker.running, c.sys.icon.ctxDone)) =
      some ([⟨[7], false⟩, ⟨[1], true⟩], false, true) ∧
    (exec sampleAssets [.set "busy", .recv, .cleanUp, .handle] sampleStart).map
      (fun c => c.sys.host.shown) =
      some [⟨[7], false⟩, ⟨[1], true⟩, ⟨[2], true⟩] :=
  ⟨by decide, by decide, by decide⟩

/-- C16, amended. A stopped ticker delivering no tick: when `CleanUp` has
returned, the ticker is stopped and the cancellation raised, and in every
schedule of the loop from there the callback is invoked at most once more, and
not at all unless the loop had already received a tick before `CleanUp`. -/
theorem after_CleanUp_at_most_one_callback (A : Assets) (c c1 c2 : Conc) (as : List Act)
    (hl : ∀ a ∈ as, a.ofLoop = true)
    (h1 : act A .cleanUp c = some c1) (h2 : exec A as c1 = some c2) :
    c1.sys.icon.ticker.running = false ∧ c1.sys.icon.ctxDone = true ∧
    ∃ extra, c2.sys.host.shown = c1.sys.host.shown ++ extra ∧ extra.length ≤ 1 ∧
      (c.loop ≠ .gotTick → extra = []) := by
  simp only [act, Option.some.injEq] at h1
  subst h1
  have hi := CleanUp_icon c.sys
  have hs : (CleanUp c.sys).1.icon.ticker.running = false := by rw [hi]; rfl
  have hd : (CleanUp c.sys).1.icon.ctxDone = true := by rw [hi]
  exact ⟨hs, hd, loop_exec_stopped A as _ c2 hl hs h2⟩

/-- C16, amended, on the schedule of the counterexample: after `CleanUp` the
loop handles the tick it had received and returns; one more frame is shown. -/
theorem after_CleanUp_at_most_one_callback_witness :
    ∃ c c1 c2, exec sampleAssets [.set "busy", .recv] sampleStart = some c ∧
      act sampleAssets .cleanUp c = some c1 ∧
      exec sampleAssets [.handle, .finish] c1 = some c2 ∧
      c1.sys.icon.ticker.running = false ∧ c1.sys.icon.ctxDone = true ∧
      ∃ extra, c2.sys.host.shown = c1.sys.host.shown ++ extra ∧ extra.length ≤ 1 ∧
        (c.loop ≠ .gotTick → extra = []) :=
  ⟨_, _, _, rfl, rfl, rfl,
    after_CleanUp_at_most_one_callback sampleAssets _ _ _ [.handle, .finish]
      (by decide) rfl rfl⟩

/-- Along a schedule of `Set`, `SetTheme` and ticks in which every tick is
handled while the ticker runs, `Inv` and the display property are kept. -/
theorem display_exec (A : Assets) (as : List Act) (c0 c : Conc)
    (hinv : Inv A c0.sys.icon)
    (hd : c0.sys.icon.currentStatus ≠ "" →
      ∃ b, iconFor c0.sys.icon.currentStatus c0.sys.icon = some b ∧
        c0.sys.host.shown.getLast?.map Call.icon = some b)
    (hacts : Act.cleanUp ∉ as) (hp : prompt A as c0 = true)
    (hr : exec A as c0 = some c) :
    c.sys.icon.currentStatus ≠ "" →
      ∃ b, iconFor c.sys.icon.currentStatus c.sys.icon = some b ∧
        c.sys.host.shown.getLast?.map Call.icon = some b := by
  induction as generalizing c0 with
  | nil =>
    simp only [exec, Option.some.injEq] at hr
    exact hr ▸ hd
  | cons a as ih =>
    simp only [exec, Option.bind_eq_some] at hr
    obtain ⟨c1, h1, h2⟩ := hr
    simp only [prompt, h1, Bool.and_eq_true] at hp
    obtain ⟨hp1, hp2⟩ := hp
    have hrest : Act.cleanUp ∉ as := fun hm => hacts (List.mem_cons_of_mem a hm)
    have hstep : ∀ op, step A true op c0.sys = some c1.sys →
        c.sys.icon.currentStatus ≠ "" →
          ∃ b, iconFor c.sys.icon.currentStatus c.sys.icon = some b ∧
            c.sys.host.shown.getLast?.map Call.icon = some b :=
      fun op hop => ih c1 (Inv_step A true op c0.sys c1.sys hinv hop)
        (display_step A op c0.sys c1.sys hinv hd hop) hrest hp2 h2
    cases a with
    | set status =>
      simp only [act, Option.map_eq_some'] at h1
      obtain ⟨s', hs', rfl⟩ := h1
      exact hstep (.set status) hs'
    | setTheme theme =>
      simp only [act, Option.map_eq_some'] at h1
      obtain ⟨r, hr', rfl⟩ := h1
      exact hstep (.setTheme theme) (by simp [step, hr'])
    | cleanUp => exact absurd (List.mem_cons_self _ _) hacts
    | recv =>
      simp only [act] at h1
      split_ifs at h1
      cases h1
      exact ih ⟨c0.sys, .gotTick⟩ hinv hd hrest hp2 h2
    | handle =>
      simp only [if_true] at hp1
      simp only [act] at h1
      split_ifs at h1
      simp only [Option.map_eq_some'] at h1
      obtain ⟨s', hs', rfl⟩ := h1
      exact hstep .tick (by simp [step, hp1, hs'])
    | finish =>
      simp only [act] at h1
      split_ifs at h1
      cases h1
      exact ih ⟨c0.sys, .returned⟩ hinv hd hrest hp2 h2

/-! ## C17 -/

/-- C17, as stated, fails. On the sample host: `NewIcon("light", cb)`,
`Set("busy")`, the loop receives a tick while the ticker is running,
`Set("idle")` runs and returns, and then the loop runs the body of the tick
case. At the end the status is "idle" and the ticker stopped, `setIcon` selects
the idle asset `[6]`, but the bytes last passed to the callback are the second
busy frame `[2]`. -/
theorem display_race_counterexample :
    (NewIcon sampleAssets "light" sampleHost).bind start = some sampleStart ∧
    (exec sampleAssets [.set "busy", .recv] sampleStart).map
      (fun c => (c.loop, c.sys.icon.ticker.running)) = some (.gotTick, true) ∧
    (exec sampleAssets [.set "busy", .recv, .set "idle", .handle] sampleStart).map
      (fun c => (c.sys.icon.currentStatus, c.sys.icon.ticker.running,
        iconFor c.sys.icon.currentStatus c.sys.icon,
        c.sys.host.shown.getLast?.map Call.icon)) =
      some ("idle", false, some [6], some [2]) :=
  ⟨by decide, by decide, by decide⟩

/-- C17, amended. In every state reached from a constructed animator by a
schedule of `Set`, `SetTheme` (with any theme string) and ticks in which the
loop handles each tick it has received while the ticker is still running: if
the status is not empty, the bytes last passed to the callback are those that
`setIcon` selects for the current status, frame index and assets. -/
theorem display_consistent_prompt (A : Assets) (theme : String) (h : Host)
    (c0 c : Conc) (as : List Act)
    (h0 : (NewIcon A theme h).bind start = some c0)
    (hacts : Act.cleanUp ∉ as) (hp : prompt A as c0 = true)
    (hr : exec A as c0 = some c) :
    c.sys.icon.currentStatus ≠ "" →
      ∃ b, iconFor c.sys.icon.currentStatus c.sys.icon = some b ∧
        c.sys.host.shown.getLast?.map Call.icon = some b := by
  simp only [Option.bind_eq_some, start, Option.map_eq_some'] at h0
  obtain ⟨cr, hc, i, hi, rfl⟩ := h0
  refine display_exec A as _ c (Inv_NewIcon A theme h cr i hc hi) ?_ hacts hp hr
  intro hst
  exact absurd (NewIcon_shown A theme h cr i hc hi).2 hst

/-- C17, amended, on a schedule from the sample start: `Set("busy")`, a tick
received and handled, `Set("idle")`; the idle asset was shown last. -/
theorem display_consistent_prompt_witness :
    ∃ c, exec sampleAssets [.set "busy", .recv, .handle, .set "idle"] sampleStart = some c ∧
      (c.sys.icon.currentStatus ≠ "" →
        ∃ b, iconFor c.sys.icon.currentStatus c.sys.icon = some b ∧
          c.sys.host.shown.getLast?.map Call.icon = some b) :=
  ⟨_, rfl, display_consistent_prompt sampleAssets "light" sampleHost sampleStart _
    [.set "busy", .recv, .handle, .set "idle"] (by decide) (by decide) (by decide) rfl⟩

/-! ## C18 -/

/-- C18. On an animator whose status is empty (as `NewIcon` leaves it, or after
`Set("")`), `SetTheme` with "light" or "dark" returns no error and replaces the
assets without invoking the callback. So after `NewIcon("light", cb)` and
`SetTheme("dark")` the bytes last shown are still `lightPause`, while the
assets in place are the dark ones, of which `lightPause` is none as soon as it
differs from the eight dark blobs. -/
theorem SetTheme_silent_on_empty_status (A : Assets) :
    (∀ s : Sys, s.icon.currentStatus = "" →
      (∃ s', SetTheme A "light" s = some (s', none) ∧ s'.host = s.host ∧
        s'.icon.busyIcons =
          ⟨A.lightBusy1, A.lightBusy2, A.lightBusy3, A.lightBusy4, A.lightBusy5⟩ ∧
        s'.icon.idleIcon = A.lightIdle ∧ s'.icon.pauseIcon = A.lightPause ∧
        s'.icon.errorIcon = A.lightError) ∧
      (∃ s', SetTheme A "dark" s = some (s', none) ∧ s'.host = s.host ∧
        s'.icon.busyIcons =
          ⟨A.darkBusy1, A.darkBusy2, A.darkBusy3, A.darkBusy4, A.darkBusy5⟩ ∧
        s'.icon.idleIcon = A.darkIdle ∧ s'.icon.pauseIcon = A.darkPause ∧
        s'.icon.errorIcon = A.darkError)) ∧
    (∀ s : Sys, ∃ s1, Set "" s = some s1 ∧ s1.icon.currentStatus = "") ∧
    (∀ (h : Host) (path : String), h.tempOutcome = .created path → h.writeOutcome = none →
      ∃ i host s', NewIcon A "light" h = some ⟨some i, none, host⟩ ∧
        SetTheme A "dark" ⟨i, host⟩ = some (s', none) ∧
        s'.host.shown = h.shown ++ [⟨A.lightPause, false⟩] ∧
        s'.host.shown.getLast?.map Call.icon = some A.lightPause ∧
        s'.icon.busyIcons =
          ⟨A.darkBusy1, A.darkBusy2, A.darkBusy3, A.darkBusy4, A.darkBusy5⟩ ∧
        s'.icon.idleIcon = A.darkIdle ∧ s'.icon.pauseIcon = A.darkPause ∧
        s'.icon.errorIcon = A.darkError ∧
        (A.lightPause ∉ [A.darkBusy1, A.darkBusy2, A.darkBusy3, A.darkBusy4, A.darkBusy5,
            A.darkIdle, A.darkPause, A.darkError] →
          A.lightPause ∉ [s'.icon.busyIcons.f0, s'.icon.busyIcons.f1, s'.icon.busyIcons.f2,
            s'.icon.busyIcons.f3, s'.icon.busyIcons.f4, s'.icon.idleIcon, s'.icon.pauseIcon,
            s'.icon.errorIcon])) := by
  refine ⟨?_, ?_, ?_⟩
  · intro s hst
    exact ⟨⟨_, (SetTheme_empty_status A s hst).1, rfl, rfl, rfl, rfl, rfl⟩,
      ⟨_, (SetTheme_empty_status A s hst).2, rfl, rfl, rfl, rfl, rfl⟩⟩
  · intro s
    exact ⟨_, Set_static_eq "" s (by decide), rfl⟩
  · intro h path ht hw
    refine ⟨_, _, _, NewIcon_light_eq A h path ht hw, (SetTheme_empty_status A _ rfl).2,
      rfl, by simp, rfl, rfl, rfl, rfl, fun hne => hne⟩

/-- C18 on the sample host, whose blobs all differ. -/
theorem SetTheme_silent_on_empty_status_witness :
    ∃ i host s', NewIcon sampleAssets "light" sampleHost = some ⟨some i, none, host⟩ ∧
      SetTheme sampleAssets "dark" ⟨i, host⟩ = some (s', none) ∧
      s'.host.shown = sampleHost.shown ++ [⟨[7], false⟩] ∧
      s'.host.shown.getLast?.map Call.icon = some [7] ∧
      s'.icon.busyIcons = ⟨[11], [12], [13], [14], [15]⟩ ∧
      s'.icon.idleIcon = [16] ∧ s'.icon.pauseIcon = [17] ∧
      s'.icon.errorIcon = [18] ∧
      ([7] ∉ [[11], [12], [13], [14], [15], [16], [17], [18]] →
        [7] ∉ [s'.icon.busyIcons.f0, s'.icon.busyIcons.f1, s'.icon.busyIcons.f2,
          s'.icon.busyIcons.f3, s'.icon.busyIcons.f4, s'.icon.idleIcon, s'.icon.pauseIcon,
          s'.icon.errorIcon]) :=
  (SetTheme_silent_on_empty_status sampleAssets).2.2 sampleHost "/tmp/yd_notify_icon1.png"
    rfl rfl

/-! ## C19 -/

/-- C19. After a `CleanUp` that returned `nil`, the next `CleanUp` returns an
"icon remove error" and changes nothing, so every further call fails as well;
and among any number of `CleanUp` calls in a row at most one returns `nil`. -/
theorem CleanUp_nil_at_most_once (s : Sys) :
    ((CleanUp s).2 = none →
      (∃ e, (CleanUp (CleanUp s).1).2 = some ("icon remove error: " ++ e)) ∧
      (CleanUp (CleanUp s).1).1 = (CleanUp s).1 ∧
      ∀ n, ∀ r ∈ cleanUps n (CleanUp s).1, r ≠ none) ∧
    (∀ n, (cleanUps n s).count none ≤ 1) := by
  constructor
  · intro h
    have hm := CleanUp_nil_removes s h
    refine ⟨⟨_, by rw [CleanUp_missing _ hm]⟩, ?_, fun n => cleanUps_missing n _ hm⟩
    rw [CleanUp_missing _ hm]
    have hi := CleanUp_icon s
    cases hc : CleanUp s with
    | mk s' e =>
      rw [hc] at hi
      cases s'
      simp only at hi ⊢
      rw [hi]
      rfl
  · intro n
    induction n generalizing s with
    | zero => simp [cleanUps]
    | succ n ih =>
      simp only [cleanUps]
      cases hc : (CleanUp s).2 with
      | none =>
        have hm := CleanUp_nil_removes s hc
        have hall := cleanUps_missing n _ hm
        rw [List.count_cons_self, List.count_eq_zero_of_not_mem]
        intro hmem
        exact hall none hmem rfl
      | some e =>
        rw [List.count_cons_of_ne (by simp)]
        exact ih (CleanUp s).1

/-- C19 at the sample state: the first `CleanUp` deletes the file and returns
`nil`, the second returns an error. -/
theorem CleanUp_nil_at_most_once_witness :
    (CleanUp sampleSys).2 = none ∧
    (∃ e, (CleanUp (CleanUp sampleSys).1).2 = some ("icon remove error: " ++ e)) ∧
    (CleanUp (CleanUp sampleSys).1).1 = (CleanUp sampleSys).1 ∧
    ∀ n, ∀ r ∈ cleanUps n (CleanUp sampleSys).1, r ≠ none :=
  ⟨by decide, (CleanUp_nil_at_most_once sampleSys).1 (by decide)⟩

end Icons
